import Mathlib

/-!
Shallow embedding of the AI travel photo generator front-end
(`src/unnamed/part_000` — the App component — plus
`src/src/components/InstantIDModule.tsx` and
`src/src/components/FaceSwapModule.tsx`).

Each async handler is modelled as a pure function from its inputs (React
state, the logged-in user and an oracle `Env` describing the responses of
the hosted platform SDK) to a record of its observable behaviour: the
external calls it makes in order, the sequence of progress values it sets,
the toasts it shows, the error it catches (if any), the images it produces
and the final values of the `isGenerating` / progress state.  `Date.now()`
and the date strings are passed in as parameters (one timestamp per run).
JavaScript numbers used for progress percentages are modelled as `ℚ`.
-/

namespace TravelApp

/-- A travel destination entry of `TRAVEL_DESTINATIONS` (App.tsx). -/
structure Destination where
  id : String
  name : String
  emoji : String
  description : String
deriving Repr, DecidableEq

/-- The 8 hardcoded destinations (App.tsx lines 43-52); the emoji strings
reproduce the bytes stored in the source file. -/
def TRAVEL_DESTINATIONS : List Destination :=
  [ { id := "paris", name := "Paris, France", emoji := "üóº", description := "Eiffel Tower backdrop" },
    { id := "tokyo", name := "Tokyo, Japan", emoji := "üèØ", description := "Cherry blossoms & temples" },
    { id := "bali", name := "Bali, Indonesia", emoji := "üèùÔ∏è", description := "Tropical paradise" },
    { id := "nyc", name := "New York City", emoji := "üèôÔ∏è", description := "Urban skyline" },
    { id := "santorini", name := "Santorini, Greece", emoji := "üèõÔ∏è", description := "Blue domes & sunset" },
    { id := "machu-picchu", name := "Machu Picchu, Peru", emoji := "‚õ∞Ô∏è", description := "Ancient ruins" },
    { id := "dubai", name := "Dubai, UAE", emoji := "üèóÔ∏è", description := "Modern architecture" },
    { id := "iceland", name := "Iceland", emoji := "üåã", description := "Northern lights & glaciers" } ]

/-- The authenticated user (only `id` is ever used by the handlers). -/
structure User where
  id : String
  email : String
  displayName : Option String
deriving Repr, DecidableEq

/-- A locally previewed image (`TrainingImage` / `InstantIDImage` /
`FacePortrait`): an id, the file (represented by its name) and the object
URL created for the preview. -/
structure RefImage where
  id : String
  fileName : String
  url : String
deriving Repr, DecidableEq

inductive ModelStatus where
  | training
  | ready
  | failed
deriving Repr, DecidableEq

/-- The `LoRAModel` record of App.tsx. -/
structure LoRAModel where
  id : String
  name : String
  status : ModelStatus
  trainingImages : List String
  createdAt : String
  progress : Option ℚ
deriving Repr, DecidableEq

/-- The `GeneratedImage` record shared by all modules. -/
structure GeneratedImage where
  id : String
  url : String
  destination : String
  originalImage : String
  originalImages : Option (List String)
  createdAt : String
deriving Repr, DecidableEq

/-- A toast notification. -/
inductive Toast where
  | success (msg : String)
  | error (msg : String)
deriving Repr, DecidableEq

/-- An external service call made through the `blink` SDK. -/
inductive ExtCall where
  | storageUpload (file : String) (path : String) (upsert : Bool)
  | aiGenerateImage (prompt : String) (quality : String) (size : String) (n : Nat)
  | aiModifyImage (images : List String) (prompt : String) (quality : String) (size : String) (n : Nat)
deriving Repr, DecidableEq

/-- Is this call one of the `blink.ai` endpoints (rather than storage)? -/
def isAiCall : ExtCall → Bool
  | .storageUpload .. => false
  | .aiGenerateImage .. => true
  | .aiModifyImage .. => true

/-- The error a handler's `catch` block receives: either a rejection coming
back from an external call, or an `Error(msg)` thrown by the handler. -/
inductive RunError where
  | upstream
  | thrown (msg : String)
deriving Repr, DecidableEq

/-- Oracle for the hosted platform SDK: what each external call returns
(`.error` models a rejected promise; `generateImage` / `modifyImage`
return the `data` array as a list of image URLs). -/
structure Env where
  uploadResult : String → String → Except Unit String
  generateImageResult : String → Nat → Except Unit (List String)
  modifyImageResult : List String → String → Nat → Except Unit (List String)

/-- The storage path `base/${user.id}/${Date.now()}-${i}-${file.name}`
used by the indexed upload loops. -/
def uploadPath (base uid : String) (now i : Nat) (file : String) : String :=
  base ++ "/" ++ uid ++ "/" ++ toString now ++ "-" ++ toString i ++ "-" ++ file

/-- The upload call made for the `i`-th image of an indexed upload loop. -/
def uploadCallOf (base uid : String) (now : Nat) (p : Nat × RefImage) : ExtCall :=
  .storageUpload p.2.fileName (uploadPath base uid now p.1 p.2.fileName) true

/-- Observable outcome of a sequential upload loop: the calls made, the
progress values set (one before each upload), and the collected
`uploadedUrls` (or the error that aborted the loop). -/
structure UploadOutcome where
  calls : List ExtCall
  progress : List ℚ
  urls : Except Unit (List String)
deriving Repr

/-- The sequential `for` upload loop shared (up to path prefix and progress
factor) by `trainLoRAModel`, `generateWithInstantID` and
`generateWithPhotoMaker`: each iteration sets progress to
`(i / total) * factor`, awaits one `blink.storage.upload`, and pushes the
returned `publicUrl`. -/
def uploadLoop (env : Env) (base uid : String) (now : Nat) (factor : ℚ) (total : Nat) :
    List RefImage → Nat → UploadOutcome
  | [], _ => ⟨[], [], .ok []⟩
  | img :: rest, i =>
    let path := uploadPath base uid now i img.fileName
    let call := ExtCall.storageUpload img.fileName path true
    let prog := (i : ℚ) / (total : ℚ) * factor
    match env.uploadResult img.fileName path with
    | .error e => ⟨[call], [prog], .error e⟩
    | .ok url =>
      let r := uploadLoop env base uid now factor total rest (i + 1)
      ⟨call :: r.calls, prog :: r.progress, r.urls.map (fun us => url :: us)⟩

/-- JavaScript `user.id.slice(-8)`: the last 8 characters (the whole string when it is
shorter than 8). -/
def sliceNeg8 (s : String) : String :=
  ⟨s.data.drop (s.data.length - 8)⟩

/-- App state touched by the LoRA training tab. -/
structure TrainState where
  trainingImages : List RefImage
  currentModel : Option LoRAModel
  isTrainingModel : Bool
  trainingProgress : ℚ
  useCustomModel : Bool
deriving Repr, DecidableEq

/-- Observable behaviour of one `trainLoRAModel` invocation. -/
structure TrainResult where
  calls : List ExtCall
  progressTrace : List ℚ
  modelTrace : List (Option LoRAModel)
  toasts : List Toast
  state : TrainState
deriving Repr, DecidableEq

/-- Embedding of `trainLoRAModel` (App.tsx lines 152-246).  The "training" is entirely
local: after uploading the images it builds a `LoRAModel` record and walks
it through a hardcoded sequence of timed progress updates
(30, 40, 50, 60, 70, 80, 90, 95, 100), ending with status `ready`.
`setTimeout` delays have no observable effect beyond ordering and are not
recorded. -/
def trainLoRAModel (env : Env) (user : Option User) (now : Nat)
    (dateStr isoStr : String) (s : TrainState) : TrainResult :=
  if s.trainingImages.length < 5 then
    { calls := [], progressTrace := [], modelTrace := [],
      toasts := [.error "Please upload at least 5 images to train a model"],
      state := s }
  else
    match user with
    | none => { calls := [], progressTrace := [], modelTrace := [], toasts := [], state := s }
    | some u =>
      let s1 : TrainState := { s with isTrainingModel := true, trainingProgress := 0 }
      let up := uploadLoop env "lora-training" u.id now 25 s.trainingImages.length s.trainingImages 0
      match up.urls with
      | .error _ =>
        let failedModel := s1.currentModel.map fun m => { m with status := ModelStatus.failed }
        { calls := up.calls
          progressTrace := 0 :: up.progress ++ [0]
          modelTrace := [failedModel]
          toasts := [.success "Starting LoRA model training...",
                     .error "Failed to train LoRA model. Please try again."]
          state := { s1 with currentModel := failedModel,
                             isTrainingModel := false, trainingProgress := 0 } }
      | .ok uploadedUrls =>
        let newModel : LoRAModel :=
          { id := "lora_" ++ toString now ++ "_" ++ sliceNeg8 u.id
            name := "Personal LoRA Model - " ++ dateStr
            status := ModelStatus.training
            trainingImages := uploadedUrls
            createdAt := isoStr
            progress := some 30 }
        let completedModel : LoRAModel :=
          { newModel with status := ModelStatus.ready, progress := some 100 }
        { calls := up.calls
          progressTrace := 0 :: up.progress ++ [30, 40, 50, 60, 70, 80, 90, 95, 100, 0]
          modelTrace := [some newModel,
                         some { newModel with progress := some 40 },
                         some { newModel with progress := some 50 },
                         some { newModel with progress := some 60 },
                         some { newModel with progress := some 70 },
                         some { newModel with progress := some 80 },
                         some { newModel with progress := some 90 },
                         some { newModel with progress := some 95 },
                         some completedModel]
          toasts := [.success "Starting LoRA model training...",
                     .success "Learning facial features...",
                     .success "Training on different angles...",
                     .success "Optimizing feature weights...",
                     .success "Finalizing model parameters...",
                     .success "üéâ LoRA model training completed! Your personalized AI model is ready to generate travel photos that perfectly preserve your facial features."]
          state := { s1 with currentModel := some completedModel, useCustomModel := true,
                             isTrainingModel := false, trainingProgress := 0 } }

/-- Embedding of `removeTrainingImage` (App.tsx lines 137-145): the object URLs revoked
and the new `trainingImages` list. -/
def removeTrainingImage (id : String) (prev : List RefImage) :
    List String × List RefImage :=
  ((match prev.find? (fun img => img.id == id) with
    | some img => [img.url]
    | none => []),
   prev.filter (fun img => img.id != id))

/-- Embedding of `clearTrainingImages` (App.tsx lines 147-150). -/
def clearTrainingImages (prev : List RefImage) : List String × List RefImage :=
  (prev.map (fun img => img.url), [])

/-- Embedding of `removeReferenceImage` (InstantIDModule.tsx lines 109-117). -/
def removeReferenceImage (id : String) (prev : List RefImage) :
    List String × List RefImage :=
  ((match prev.find? (fun img => img.id == id) with
    | some img => [img.url]
    | none => []),
   prev.filter (fun img => img.id != id))

/-- Embedding of `clearReferenceImages` (InstantIDModule.tsx lines 119-122). -/
def clearReferenceImages (prev : List RefImage) : List String × List RefImage :=
  (prev.map (fun img => img.url), [])

/-- The check `currentModel?.status === 'ready'`. -/
def modelReady : Option LoRAModel → Bool
  | some m => m.status == ModelStatus.ready
  | none => false

/-- The base prompt of `generateTravelPhoto` (App.tsx line 271). -/
def travelBasePrompt (d : Destination) : String :=
  "Create a realistic travel photo by placing this exact person in " ++ d.description ++ " in " ++ d.name ++ ". IMPORTANT: Preserve the person's facial features, skin tone, hair, and overall appearance exactly as shown in the original photo. Only change the background and environment to match the travel destination. The person should appear naturally integrated into the scenic location with proper lighting and shadows that match the environment. Maintain high photographic quality and realistic composition."

/-- The custom-model prompt of `generateTravelPhoto` (App.tsx line 275). -/
def loraEnhancedPrompt (d : Destination) : String :=
  "[LoRA Model Enhanced] Create a photorealistic travel photo of the person from the trained LoRA model in " ++ d.description ++ " in " ++ d.name ++ ". The LoRA model has learned this person's unique facial features, expressions, and characteristics from multiple training images. Generate a high-quality travel photo showing the person naturally enjoying the destination with authentic travel photography composition, proper environmental lighting, and seamless integration into the scenic location. Maintain the person's distinctive facial features, skin tone, hair style, and natural expressions while adapting to the travel setting."

/-- The prompt actually sent by `generateTravelPhoto` (App.tsx lines 271-276). -/
def singlePhotoPrompt (useCustom : Bool) (m : Option LoRAModel) (d : Destination) : String :=
  if useCustom && modelReady m then loraEnhancedPrompt d else travelBasePrompt d

/-- The prompt of `generateWithLoRAModel` (App.tsx line 328). -/
def loraGenPrompt (d : Destination) : String :=
  "[LoRA Model Generation] Create a photorealistic travel photo of the person using the trained LoRA model in " ++ d.description ++ " in " ++ d.name ++ ". The LoRA model contains learned facial features, expressions, and characteristics from multiple training images. Generate a high-quality travel photo showing the person naturally enjoying and exploring the destination with authentic travel photography composition. Include proper environmental lighting, realistic shadows, and seamless integration into the scenic location. The person should appear relaxed and happy, with natural poses and expressions that match the travel setting. Maintain photographic realism with professional travel photography aesthetics."

/-- The scene prompt of `generateWithFaceSwap` (FaceSwapModule.tsx line 136). -/
def scenePrompt (d : Destination) : String :=
  "Create a photorealistic travel scene in " ++ d.description ++ " in " ++ d.name ++ ". Generate a beautiful, high-quality travel photography composition showing the iconic location with proper lighting, shadows, and atmospheric details. The scene should be ready for a person to be naturally integrated into it. Professional travel photography style with excellent composition and lighting."

/-- The face-swap prompt of `generateWithFaceSwap` (FaceSwapModule.tsx lines 154-165). -/
def faceSwapPrompt (d : Destination) : String :=
  "[Advanced Face Swap] Seamlessly integrate the face from the portrait image into this travel scene in " ++ d.name ++ ". \n\nCRITICAL REQUIREMENTS:\n- Preserve the EXACT facial features, skin tone, and characteristics from the portrait\n- Maintain natural facial proportions and expressions\n- Blend the face naturally with appropriate lighting that matches the scene\n- Ensure realistic shadows and highlights on the face\n- Create a natural, believable integration that looks like the person is actually there\n- Maintain high photographic quality and realism\n- The person should appear naturally enjoying the travel destination\n\nThe result should look like a genuine travel photo of the person at this location, with perfect face preservation and natural integration."

/-- The prompt of `generateWithInstantID` (InstantIDModule.tsx lines 159-169). -/
def instantIDPrompt (d : Destination) : String :=
  "[InstantID Technology] Create a photorealistic travel photo using InstantID face preservation technology. Place the person from the reference images in " ++ d.description ++ " in " ++ d.name ++ ". \n\nCRITICAL REQUIREMENTS:\n- Use InstantID to maintain EXACT facial identity from reference images\n- Preserve facial structure, features, skin tone, and unique characteristics\n- Generate natural travel photography with authentic poses and expressions\n- Ensure seamless integration with the destination environment\n- Apply proper lighting and shadows that match the location\n- Create high-quality, professional travel photography composition\n\nThe person should appear naturally enjoying the destination with realistic travel poses. Maintain photographic realism with professional travel photography aesthetics."

/-- The fixed template of `generateWithPhotoMaker` (InstantIDModule.tsx lines 579-589). -/
def photoMakerBase (d : Destination) : String :=
  "[PhotoMaker Technology] Create a photorealistic travel photo using PhotoMaker's advanced identity preservation. Place the person from the reference images in " ++ d.description ++ " in " ++ d.name ++ ".\n\nPHOTOMAKER REQUIREMENTS:\n- Use PhotoMaker's stochastic identity mixing for consistent facial features\n- Preserve unique facial characteristics, expressions, and identity markers\n- Generate natural travel photography with authentic poses and lighting\n- Ensure seamless integration with the destination environment\n- Apply realistic shadows, reflections, and environmental lighting\n- Create professional travel photography composition with depth and atmosphere\n\nThe person should appear naturally enjoying the destination with realistic travel poses and expressions. Maintain photographic realism with professional travel photography aesthetics."

/-- The prompt sent by `generateWithPhotoMaker`, with the optional custom
suffix (InstantIDModule.tsx lines 591-594). -/
def photoMakerPrompt (d : Destination) (customPrompt : String) : String :=
  if customPrompt.trim == "" then photoMakerBase d
  else photoMakerBase d ++ "\n\nAdditional Style Requirements: " ++ customPrompt.trim

/-- Observable behaviour of one generation-handler invocation.  `images`
is the list of `GeneratedImage`s produced this run, in the order they are
added to state (App handlers) or handed to `onImageGenerated` (modules);
it is empty whenever the run fails.  `isGenerating` / `generationProgress`
are the final values of those two pieces of state. -/
structure GenResult where
  calls : List ExtCall
  progressTrace : List ℚ
  toasts : List Toast
  thrownError : Option RunError
  images : List GeneratedImage
  isGenerating : Bool
  generationProgress : ℚ
deriving Repr, DecidableEq

/-- An early `return` before `setIsGenerating(true)`: nothing happens and
the `isGenerating`/progress state keeps its previous value. -/
def noRun (gen0 : Bool) (prog0 : ℚ) : GenResult :=
  { calls := [], progressTrace := [], toasts := [], thrownError := none,
    images := [], isGenerating := gen0, generationProgress := prog0 }

/-- Embedding of `generateTravelPhoto` (App.tsx lines 248-312). -/
def generateTravelPhoto (env : Env) (selectedFile : Option String)
    (selectedDestination : String) (user : Option User)
    (generateMultiple useCustomModel : Bool) (currentModel : Option LoRAModel)
    (now : Nat) (isoStr : String) (gen0 : Bool) (prog0 : ℚ) : GenResult :=
  match selectedFile, user with
  | some file, some u =>
    if selectedDestination == "" then noRun gen0 prog0
    else
      let path := "originals/" ++ u.id ++ "/" ++ toString now ++ "-" ++ file
      let call1 := ExtCall.storageUpload file path true
      match env.uploadResult file path with
      | .error _ =>
        { calls := [call1], progressTrace := [0, 0],
          toasts := [.error "Failed to generate travel photo. Please try again."],
          thrownError := some .upstream, images := [],
          isGenerating := false, generationProgress := 0 }
      | .ok originalImageUrl =>
        match TRAVEL_DESTINATIONS.find? (fun d => d.id == selectedDestination) with
        | none =>
          { calls := [call1], progressTrace := [0, 25, 0],
            toasts := [.error "Failed to generate travel photo. Please try again."],
            thrownError := some (.thrown "Invalid destination"), images := [],
            isGenerating := false, generationProgress := 0 }
        | some destination =>
          let prompt := singlePhotoPrompt useCustomModel currentModel destination
          let k := if generateMultiple then 3 else 1
          let call2 := ExtCall.aiModifyImage [originalImageUrl] prompt "high" "1024x1024" k
          match env.modifyImageResult [originalImageUrl] prompt k with
          | .error _ =>
            { calls := [call1, call2], progressTrace := [0, 25, 50, 0],
              toasts := [.error "Failed to generate travel photo. Please try again."],
              thrownError := some .upstream, images := [],
              isGenerating := false, generationProgress := 0 }
          | .ok data =>
            if 0 < data.length then
              { calls := [call1, call2], progressTrace := [0, 25, 50, 75, 100, 0],
                toasts := [.success (toString data.length ++ " travel photo" ++ (if 1 < data.length then "s" else "") ++ " generated for " ++ destination.name ++ "!")],
                thrownError := none,
                images := data.enum.map (fun p =>
                  { id := "gen_" ++ toString now ++ "_" ++ toString p.1
                    url := p.2
                    destination := destination.name
                    originalImage := originalImageUrl
                    originalImages := none
                    createdAt := isoStr }),
                isGenerating := false, generationProgress := 0 }
            else
              { calls := [call1, call2], progressTrace := [0, 25, 50, 75, 0],
                toasts := [.error "Failed to generate travel photo. Please try again."],
                thrownError := some (.thrown "Failed to generate image"), images := [],
                isGenerating := false, generationProgress := 0 }
  | _, _ => noRun gen0 prog0

/-- App state update on success: `setGeneratedImages(prev => [...newImages, ...prev])`.
On failure no setter runs, which coincides with prepending the empty
`images` list. -/
def generatedImagesAfter (res : GenResult) (prev : List GeneratedImage) :
    List GeneratedImage :=
  res.images ++ prev

/-- Embedding of `generateWithLoRAModel` (App.tsx lines 314-366). -/
def generateWithLoRAModel (env : Env) (selectedDestination : String)
    (user : Option User) (currentModel : Option LoRAModel)
    (now : Nat) (isoStr : String) (gen0 : Bool) (prog0 : ℚ) : GenResult :=
  match user, currentModel with
  | some _, some m =>
    if selectedDestination == "" || !(m.status == ModelStatus.ready) then noRun gen0 prog0
    else
      match TRAVEL_DESTINATIONS.find? (fun d => d.id == selectedDestination) with
      | none =>
        { calls := [], progressTrace := [0, 0],
          toasts := [.error "Failed to generate travel photos with LoRA model. Please try again."],
          thrownError := some (.thrown "Invalid destination"), images := [],
          isGenerating := false, generationProgress := 0 }
      | some destination =>
        let prompt := loraGenPrompt destination
        let call1 := ExtCall.aiGenerateImage prompt "high" "1024x1024" 3
        match env.generateImageResult prompt 3 with
        | .error _ =>
          { calls := [call1], progressTrace := [0, 25, 50, 0],
            toasts := [.error "Failed to generate travel photos with LoRA model. Please try again."],
            thrownError := some .upstream, images := [],
            isGenerating := false, generationProgress := 0 }
        | .ok data =>
          if 0 < data.length then
            { calls := [call1], progressTrace := [0, 25, 50, 75, 100, 0],
              toasts := [.success (toString data.length ++ " travel photos generated using your LoRA model for " ++ destination.name ++ "!")],
              thrownError := none,
              images := data.enum.map (fun p =>
                { id := "lora_gen_" ++ toString now ++ "_" ++ toString p.1
                  url := p.2
                  destination := destination.name
                  originalImage := ""
                  originalImages := none
                  createdAt := isoStr }),
              isGenerating := false, generationProgress := 0 }
          else
            { calls := [call1], progressTrace := [0, 25, 50, 75, 0],
              toasts := [.error "Failed to generate travel photos with LoRA model. Please try again."],
              thrownError := some (.thrown "Failed to generate image"), images := [],
              isGenerating := false, generationProgress := 0 }
  | _, _ => noRun gen0 prog0

/-- Embedding of `generateWithInstantID` (InstantIDModule.tsx lines 124-211). -/
def generateWithInstantID (env : Env) (referenceImages : List RefImage)
    (selectedDestination : String) (user : Option User)
    (now : Nat) (isoStr : String) (gen0 : Bool) (prog0 : ℚ) : GenResult :=
  match user with
  | none => noRun gen0 prog0
  | some u =>
    if referenceImages.length == 0 || selectedDestination == "" then noRun gen0 prog0
    else
      let up := uploadLoop env "instant-id" u.id now 30 referenceImages.length referenceImages 0
      match up.urls with
      | .error _ =>
        { calls := up.calls, progressTrace := 0 :: up.progress ++ [0],
          toasts := [.success "Uploading reference images...",
                     .error "Failed to generate InstantID photos. Please try again."],
          thrownError := some .upstream, images := [],
          isGenerating := false, generationProgress := 0 }
      | .ok uploadedUrls =>
        match TRAVEL_DESTINATIONS.find? (fun d => d.id == selectedDestination) with
        | none =>
          { calls := up.calls, progressTrace := 0 :: up.progress ++ [40, 0],
            toasts := [.success "Uploading reference images...",
                       .error "Failed to generate InstantID photos. Please try again."],
            thrownError := some (.thrown "Invalid destination"), images := [],
            isGenerating := false, generationProgress := 0 }
        | some destination =>
          let prompt := instantIDPrompt destination
          let call2 := ExtCall.aiModifyImage uploadedUrls prompt "high" "1024x1024" 3
          match env.modifyImageResult uploadedUrls prompt 3 with
          | .error _ =>
            { calls := up.calls ++ [call2], progressTrace := 0 :: up.progress ++ [40, 50, 70, 0],
              toasts := [.success "Uploading reference images...",
                         .success "Processing with InstantID...",
                         .error "Failed to generate InstantID photos. Please try again."],
              thrownError := some .upstream, images := [],
              isGenerating := false, generationProgress := 0 }
          | .ok data =>
            if 0 < data.length then
              { calls := up.calls ++ [call2],
                progressTrace := 0 :: up.progress ++ [40, 50, 70, 90, 100, 0],
                toasts := [.success "Uploading reference images...",
                           .success "Processing with InstantID...",
                           .success ("🎉 " ++ toString data.length ++ " InstantID travel photos generated for " ++ destination.name ++ "!")],
                thrownError := none,
                images := data.enum.map (fun p =>
                  { id := "instant_gen_" ++ toString now ++ "_" ++ toString p.1
                    url := p.2
                    destination := destination.name
                    originalImage := ""
                    originalImages := some uploadedUrls
                    createdAt := isoStr }),
                isGenerating := false, generationProgress := 0 }
            else
              { calls := up.calls ++ [call2],
                progressTrace := 0 :: up.progress ++ [40, 50, 70, 90, 0],
                toasts := [.success "Uploading reference images...",
                           .success "Processing with InstantID...",
                           .error "Failed to generate InstantID photos. Please try again."],
                thrownError := some (.thrown "Failed to generate images"), images := [],
                isGenerating := false, generationProgress := 0 }

/-- Embedding of `generateWithPhotoMaker` (InstantIDModule.tsx lines 544-636). -/
def generateWithPhotoMaker (env : Env) (referenceImages : List RefImage)
    (selectedDestination : String) (user : Option User)
    (customPrompt : String) (generateMultiple : Bool)
    (now : Nat) (isoStr : String) (gen0 : Bool) (prog0 : ℚ) : GenResult :=
  match user with
  | none => noRun gen0 prog0
  | some u =>
    if referenceImages.length == 0 || selectedDestination == "" then noRun gen0 prog0
    else
      let up := uploadLoop env "photomaker" u.id now 25 referenceImages.length referenceImages 0
      match up.urls with
      | .error _ =>
        { calls := up.calls, progressTrace := 0 :: up.progress ++ [0],
          toasts := [.success "Uploading reference images...",
                     .error "Failed to generate PhotoMaker photos. Please try again."],
          thrownError := some .upstream, images := [],
          isGenerating := false, generationProgress := 0 }
      | .ok uploadedUrls =>
        match TRAVEL_DESTINATIONS.find? (fun d => d.id == selectedDestination) with
        | none =>
          { calls := up.calls, progressTrace := 0 :: up.progress ++ [35, 0],
            toasts := [.success "Uploading reference images...",
                       .error "Failed to generate PhotoMaker photos. Please try again."],
            thrownError := some (.thrown "Invalid destination"), images := [],
            isGenerating := false, generationProgress := 0 }
        | some destination =>
          let prompt := photoMakerPrompt destination customPrompt
          let k := if generateMultiple then 4 else 2
          let call2 := ExtCall.aiModifyImage uploadedUrls prompt "high" "1024x1024" k
          match env.modifyImageResult uploadedUrls prompt k with
          | .error _ =>
            { calls := up.calls ++ [call2], progressTrace := 0 :: up.progress ++ [35, 45, 60, 0],
              toasts := [.success "Uploading reference images...",
                         .success "Processing with PhotoMaker...",
                         .error "Failed to generate PhotoMaker photos. Please try again."],
              thrownError := some .upstream, images := [],
              isGenerating := false, generationProgress := 0 }
          | .ok data =>
            if 0 < data.length then
              { calls := up.calls ++ [call2],
                progressTrace := 0 :: up.progress ++ [35, 45, 60, 85, 100, 0],
                toasts := [.success "Uploading reference images...",
                           .success "Processing with PhotoMaker...",
                           .success ("ðŸŽ‰ " ++ toString data.length ++ " PhotoMaker travel photos generated for " ++ destination.name ++ "!")],
                thrownError := none,
                images := data.enum.map (fun p =>
                  { id := "photomaker_gen_" ++ toString now ++ "_" ++ toString p.1
                    url := p.2
                    destination := destination.name
                    originalImage := ""
                    originalImages := some uploadedUrls
                    createdAt := isoStr }),
                isGenerating := false, generationProgress := 0 }
            else
              { calls := up.calls ++ [call2],
                progressTrace := 0 :: up.progress ++ [35, 45, 60, 85, 0],
                toasts := [.success "Uploading reference images...",
                           .success "Processing with PhotoMaker...",
                           .error "Failed to generate PhotoMaker photos. Please try again."],
                thrownError := some (.thrown "Failed to generate images"), images := [],
                isGenerating := false, generationProgress := 0 }

/-- Embedding of `generateWithFaceSwap` (FaceSwapModule.tsx lines 110-203). -/
def generateWithFaceSwap (env : Env) (facePortrait : Option RefImage)
    (selectedDestination : String) (user : Option User)
    (now : Nat) (isoStr : String) (gen0 : Bool) (prog0 : ℚ) : GenResult :=
  match facePortrait, user with
  | some portrait, some u =>
    if selectedDestination == "" then noRun gen0 prog0
    else
      let path := "face-portraits/" ++ u.id ++ "/" ++ toString now ++ "-" ++ portrait.fileName
      let call1 := ExtCall.storageUpload portrait.fileName path true
      match env.uploadResult portrait.fileName path with
      | .error _ =>
        { calls := [call1], progressTrace := [0, 0],
          toasts := [.success "Uploading face portrait...",
                     .error "Failed to generate face-swapped photos. Please try again."],
          thrownError := some .upstream, images := [],
          isGenerating := false, generationProgress := 0 }
      | .ok portraitUrl =>
        match TRAVEL_DESTINATIONS.find? (fun d => d.id == selectedDestination) with
        | none =>
          { calls := [call1], progressTrace := [0, 25, 0],
            toasts := [.success "Uploading face portrait...",
                       .error "Failed to generate face-swapped photos. Please try again."],
            thrownError := some (.thrown "Invalid destination"), images := [],
            isGenerating := false, generationProgress := 0 }
        | some destination =>
          let sPrompt := scenePrompt destination
          let call2 := ExtCall.aiGenerateImage sPrompt "high" "1024x1024" 1
          match env.generateImageResult sPrompt 1 with
          | .error _ =>
            { calls := [call1, call2], progressTrace := [0, 25, 40, 0],
              toasts := [.success "Uploading face portrait...",
                         .success "Generating travel scene...",
                         .error "Failed to generate face-swapped photos. Please try again."],
              thrownError := some .upstream, images := [],
              isGenerating := false, generationProgress := 0 }
          | .ok [] =>
            { calls := [call1, call2], progressTrace := [0, 25, 40, 0],
              toasts := [.success "Uploading face portrait...",
                         .success "Generating travel scene...",
                         .error "Failed to generate face-swapped photos. Please try again."],
              thrownError := some (.thrown "Failed to generate travel scene"), images := [],
              isGenerating := false, generationProgress := 0 }
          | .ok (scene0 :: _) =>
            let fPrompt := faceSwapPrompt destination
            let call3 := ExtCall.aiModifyImage [scene0, portraitUrl] fPrompt "high" "1024x1024" 3
            match env.modifyImageResult [scene0, portraitUrl] fPrompt 3 with
            | .error _ =>
              { calls := [call1, call2, call3], progressTrace := [0, 25, 40, 65, 0],
                toasts := [.success "Uploading face portrait...",
                           .success "Generating travel scene...",
                           .success "Performing face swap integration...",
                           .error "Failed to generate face-swapped photos. Please try again."],
                thrownError := some .upstream, images := [],
                isGenerating := false, generationProgress := 0 }
            | .ok finalData =>
              if 0 < finalData.length then
                { calls := [call1, call2, call3],
                  progressTrace := [0, 25, 40, 65, 90, 100, 0],
                  toasts := [.success "Uploading face portrait...",
                             .success "Generating travel scene...",
                             .success "Performing face swap integration...",
                             .success ("ðŸŽ‰ " ++ toString finalData.length ++ " face-swapped travel photos generated for " ++ destination.name ++ "!")],
                  thrownError := none,
                  images := finalData.enum.map (fun p =>
                    { id := "faceswap_gen_" ++ toString now ++ "_" ++ toString p.1
                      url := p.2
                      destination := destination.name
                      originalImage := portraitUrl
                      originalImages := none
                      createdAt := isoStr }),
                  isGenerating := false, generationProgress := 0 }
              else
                { calls := [call1, call2, call3],
                  progressTrace := [0, 25, 40, 65, 90, 0],
                  toasts := [.success "Uploading face portrait...",
                             .success "Generating travel scene...",
                             .success "Performing face swap integration...",
                             .error "Failed to generate face-swapped photos. Please try again."],
                  thrownError := some (.thrown "Failed to generate face-swapped images"), images := [],
                  isGenerating := false, generationProgress := 0 }
  | _, _ => noRun gen0 prog0

/-- Predicate for `modifyImage` calls. -/
def isModifyCall : ExtCall → Bool
  | .aiModifyImage .. => true
  | _ => false

/-- The `LoRAModel` record built locally by a successful `trainLoRAModel`
run (`newModel`, before the final status flip to `ready`), with the
uploaded public URLs given by `upl`. -/
def trainedModel (upl : String → String → String) (u : User) (now : Nat)
    (dateStr isoStr : String) (s : TrainState) : LoRAModel :=
  { id := "lora_" ++ toString now ++ "_" ++ sliceNeg8 u.id
    name := "Personal LoRA Model - " ++ dateStr
    status := ModelStatus.training
    trainingImages := (List.enumFrom 0 s.trainingImages).map
      (fun p => upl p.2.fileName (uploadPath "lora-training" u.id now p.1 p.2.fileName))
    createdAt := isoStr
    progress := some 30 }

/-! ### Demo fixtures used by witnesses -/

def demoUpl (f p : String) : String :=
  "https://storage.example/" ++ p ++ "/" ++ f

def demoEnv : Env :=
  { uploadResult := fun f p => .ok (demoUpl f p)
    generateImageResult := fun _ _ => .ok ["https://img.example/scene-1"]
    modifyImageResult := fun _ _ _ => .ok ["https://img.example/result-1"] }

def demoUser : User :=
  { id := "user_abcdefgh", email := "demo@example.com", displayName := none }

def demoTrainImages : List RefImage :=
  [⟨"img_1", "a.jpg", "blob:a"⟩, ⟨"img_2", "b.jpg", "blob:b"⟩,
   ⟨"img_3", "c.jpg", "blob:c"⟩, ⟨"img_4", "d.jpg", "blob:d"⟩,
   ⟨"img_5", "e.jpg", "blob:e"⟩]

def demoTrainState : TrainState :=
  { trainingImages := demoTrainImages, currentModel := none,
    isTrainingModel := false, trainingProgress := 0, useCustomModel := false }


/-! ### Helper lemmas -/

/-- When every upload succeeds (`upl` gives the returned public URL), the
sequential upload loop performs exactly one upload per image, in list
order, sets the scheduled progress value before each one, and collects the
returned URLs in the same order. -/
theorem uploadLoop_ok (env : Env) (upl : String → String → String)
    (hup : ∀ f p, env.uploadResult f p = Except.ok (upl f p))
    (base uid : String) (now : Nat) (factor : ℚ) (total : Nat) :
    ∀ (imgs : List RefImage) (i : Nat),
      uploadLoop env base uid now factor total imgs i =
        ⟨(List.enumFrom i imgs).map (uploadCallOf base uid now),
         (List.enumFrom i imgs).map (fun p => (p.1 : ℚ) / (total : ℚ) * factor),
         Except.ok ((List.enumFrom i imgs).map
           (fun p => upl p.2.fileName (uploadPath base uid now p.1 p.2.fileName)))⟩ := by
  intro imgs
  induction imgs with
  | nil => intro i; simp [uploadLoop, List.enumFrom]
  | cons img rest ih =>
    intro i
    simp [uploadLoop, List.enumFrom, hup, ih (i + 1), Except.map, uploadCallOf]

/-- Mapping a function of the index over `enumFrom 0` is mapping it over
`range`. -/
theorem enumFrom_map_index (f : Nat → β) (l : List α) :
    (List.enumFrom 0 l).map (fun p => f p.1) = (List.range l.length).map f := by
  have h : (fun p : Nat × α => f p.1) = f ∘ Prod.fst := rfl
  rw [h, ← List.map_map, List.enumFrom_map_fst, ← List.range_eq_range']

/-- A destination id that is not one of the 8 known ids makes the lookup
fail. -/
theorem find?_dest_none (sel : String)
    (h : sel ∉ TRAVEL_DESTINATIONS.map Destination.id) :
    TRAVEL_DESTINATIONS.find? (fun d => d.id == sel) = none := by
  refine List.find?_eq_none.mpr fun x hx => ?_
  simp only [beq_iff_eq]
  intro hid
  exact h (hid ▸ List.mem_map_of_mem Destination.id hx)

/-- The prompt `p` contains the destination's description and, later, its
name. -/
def containsDest (p : String) (d : Destination) : Prop :=
  ∃ a b c, p = a ++ d.description ++ b ++ d.name ++ c

theorem containsDest_append {p : String} {d : Destination}
    (h : containsDest p d) (q : String) : containsDest (p ++ q) d := by
  obtain ⟨a, b, c, rfl⟩ := h
  exact ⟨a, b, c ++ q, by rw [String.append_assoc]⟩

/-- Progress values of the upload phase stay at or below the factor. -/
theorem upload_progress_le (n i : Nat) (factor : ℚ) (hle : factor ≤ 30)
    (hf : 0 ≤ factor) (hi : i < n) : (i : ℚ) / (n : ℚ) * factor ≤ 30 := by
  have hn : (0 : ℚ) < (n : ℚ) := by
    exact_mod_cast Nat.pos_of_ne_zero (by omega)
  have h1 : (i : ℚ) / (n : ℚ) ≤ 1 := by
    rw [div_le_one hn]
    exact_mod_cast Nat.le_of_lt hi
  calc (i : ℚ) / (n : ℚ) * factor ≤ 1 * factor :=
        mul_le_mul_of_nonneg_right h1 hf
    _ = factor := one_mul _
    _ ≤ 30 := hle

/-- The upload-phase progress values form a nondecreasing chain, and the
whole in-progress trace of `trainLoRAModel` is a nondecreasing chain. -/
theorem chain_upload_schedule (n : Nat) (factor : ℚ) (h0 : 0 ≤ factor)
    (hle : factor ≤ 30) (hn : 1 ≤ n) :
    List.Chain' (· ≤ ·)
      (0 :: (List.range n).map (fun i : ℕ => (i : ℚ) / (n : ℚ) * factor)
        ++ [30, 40, 50, 60, 70, 80, 90, 95, 100]) := by
  have hnq : (0 : ℚ) < (n : ℚ) := by exact_mod_cast hn
  rw [show (0 : ℚ) :: (List.range n).map (fun i : ℕ => (i : ℚ) / (n : ℚ) * factor)
        ++ [30, 40, 50, 60, 70, 80, 90, 95, 100]
      = ((0 : ℚ) :: (List.range n).map (fun i : ℕ => (i : ℚ) / (n : ℚ) * factor))
        ++ [30, 40, 50, 60, 70, 80, 90, 95, 100] from by simp,
     List.chain'_append]
  refine ⟨?_, ?_, ?_⟩
  · rw [List.chain'_cons']
    constructor
    · intro y hy
      rcases List.mem_of_mem_head? hy with hmem
      rcases List.mem_map.mp hmem with ⟨i, _, rfl⟩
      exact mul_nonneg (div_nonneg (by positivity) (by positivity)) h0
    · have hp : List.Pairwise
          (fun a b : ℕ => (a : ℚ) / (n : ℚ) * factor ≤ (b : ℚ) / (n : ℚ) * factor)
          (List.range n) := by
        refine (List.pairwise_lt_range n).imp fun hab => ?_
        exact mul_le_mul_of_nonneg_right
          ((div_le_div_iff_of_pos_right hnq).mpr (by exact_mod_cast hab.le)) h0
      exact (List.pairwise_map.mpr hp).chain'
  · refine List.chain'_cons'.mpr ⟨by norm_num, ?_⟩
    refine List.chain'_cons'.mpr ⟨by norm_num, ?_⟩
    refine List.chain'_cons'.mpr ⟨by norm_num, ?_⟩
    refine List.chain'_cons'.mpr ⟨by norm_num, ?_⟩
    refine List.chain'_cons'.mpr ⟨by norm_num, ?_⟩
    refine List.chain'_cons'.mpr ⟨by norm_num, ?_⟩
    refine List.chain'_cons'.mpr ⟨by norm_num, ?_⟩
    refine List.chain'_cons'.mpr ⟨by norm_num, ?_⟩
    exact List.chain'_singleton _
  · intro x hx y hy
    simp only [List.head?_cons, Option.mem_def, Option.some.injEq] at hy
    subst hy
    obtain ⟨hne, hxl⟩ := List.mem_getLast?_eq_getLast hx
    have hmem : x ∈ (0 : ℚ) :: (List.range n).map (fun i : ℕ => (i : ℚ) / (n : ℚ) * factor) :=
      hxl ▸ List.getLast_mem hne
    rcases List.mem_cons.mp hmem with rfl | hmem
    · norm_num
    · rcases List.mem_map.mp hmem with ⟨i, hi, rfl⟩
      exact upload_progress_le n i factor hle h0 (List.mem_range.mp hi)

/-- When the matching id is unique, `find?` picks out a decomposition of
the list and `filter` removes exactly that element. -/
theorem find_single_decomp (idv : String) :
    ∀ (prev : List RefImage), (prev.map RefImage.id).Nodup →
      ∀ img, prev.find? (fun i => i.id == idv) = some img →
        ∃ l1 l2, prev = l1 ++ img :: l2 ∧
          prev.filter (fun i => i.id != idv) = l1 ++ l2 ∧
          (∀ j ∈ l1, j.id ≠ idv) ∧ (∀ j ∈ l2, j.id ≠ idv) := by
  intro prev
  induction prev with
  | nil => intro _ img h; simp at h
  | cons a rest ih =>
    intro hnd img hfind
    rw [List.map_cons, List.nodup_cons] at hnd
    by_cases ha : a.id = idv
    · rw [List.find?_cons_of_pos (p := fun i : RefImage => i.id == idv) rest (by simp [ha])] at hfind
      obtain rfl : a = img := by injection hfind
      have hrest : ∀ j ∈ rest, j.id ≠ idv := by
        intro j hj hj'
        exact hnd.1 (by rw [← ha] at hj'; exact hj' ▸ List.mem_map_of_mem RefImage.id hj)
      refine ⟨[], rest, by simp, ?_, by simp, hrest⟩
      rw [List.filter_cons_of_neg (p := fun i : RefImage => i.id != idv) (by simp [ha]),
        List.filter_eq_self.mpr]
      · simp
      · intro j hj
        simpa using hrest j hj
    · rw [List.find?_cons_of_neg (p := fun i : RefImage => i.id == idv) rest (by simp [ha])] at hfind
      obtain ⟨l1, l2, heq, hfilt, h1, h2⟩ := ih hnd.2 img hfind
      refine ⟨a :: l1, l2, by simp [heq], ?_, ?_, h2⟩
      · rw [List.filter_cons_of_pos (p := fun i : RefImage => i.id != idv) (by simp [ha]), hfilt]
        simp
      · intro j hj
        rcases List.mem_cons.mp hj with rfl | hj
        · exact ha
        · exact h1 j hj

/-! ### Claim theorems -/

/-- C9: implicit precondition guard on training.  With fewer than 5
training images `trainLoRAModel` returns immediately having changed
nothing except showing the error toast; with at least 5 images but no
logged-in user it returns immediately with no effect at all.  In both
cases no upload is made and the state (including `trainingImages`,
`currentModel`, `isTrainingModel` and `trainingProgress`) is unchanged. -/
theorem trainLoRAModel_guard :
    (∀ (env : Env) (user : Option User) (now : Nat) (dateStr isoStr : String)
        (s : TrainState), s.trainingImages.length < 5 →
      trainLoRAModel env user now dateStr isoStr s =
        { calls := [], progressTrace := [], modelTrace := [],
          toasts := [.error "Please upload at least 5 images to train a model"],
          state := s }) ∧
    (∀ (env : Env) (now : Nat) (dateStr isoStr : String) (s : TrainState),
        5 ≤ s.trainingImages.length →
      trainLoRAModel env none now dateStr isoStr s =
        { calls := [], progressTrace := [], modelTrace := [], toasts := [], state := s }) := by
  constructor
  · intro env user now dateStr isoStr s h
    simp [trainLoRAModel, if_pos h]
  · intro env now dateStr isoStr s h
    simp [trainLoRAModel, Nat.not_lt.mpr h]

/-- C9 witness. -/
theorem trainLoRAModel_guard_witness :
    (demoTrainState.trainingImages.take 3).length < 5 ∧
    trainLoRAModel demoEnv (some demoUser) 111 "d" "i"
        { demoTrainState with trainingImages := demoTrainState.trainingImages.take 3 } =
      { calls := [], progressTrace := [], modelTrace := [],
        toasts := [.error "Please upload at least 5 images to train a model"],
        state := { demoTrainState with trainingImages := demoTrainState.trainingImages.take 3 } } ∧
    trainLoRAModel demoEnv none 111 "d" "i" demoTrainState =
      { calls := [], progressTrace := [], modelTrace := [], toasts := [], state := demoTrainState } :=
  ⟨by decide,
   trainLoRAModel_guard.1 demoEnv (some demoUser) 111 "d" "i" _ (by decide),
   trainLoRAModel_guard.2 demoEnv 111 "d" "i" demoTrainState (by decide)⟩

/-- C8: object-URL lifecycle for local previews.  `removeTrainingImage`
(and `removeReferenceImage`) revokes the object URL of exactly the
matching image and removes only that element, leaving every other element
in place with its URL unrevoked (ids are unique in the app state); when no
id matches, nothing is revoked or removed.  `clearTrainingImages` (and
`clearReferenceImages`) revokes every URL and empties the list. -/
theorem objectURL_lifecycle :
    (∀ (idv : String) (prev : List RefImage) (img : RefImage),
        (prev.map RefImage.id).Nodup →
        prev.find? (fun i => i.id == idv) = some img →
        ∃ l1 l2, prev = l1 ++ img :: l2 ∧
          removeTrainingImage idv prev = ([img.url], l1 ++ l2) ∧
          removeReferenceImage idv prev = ([img.url], l1 ++ l2) ∧
          (∀ j ∈ l1 ++ l2, j.id ≠ idv)) ∧
    (∀ (idv : String) (prev : List RefImage),
        prev.find? (fun i => i.id == idv) = none →
        removeTrainingImage idv prev = ([], prev) ∧
        removeReferenceImage idv prev = ([], prev)) ∧
    (∀ prev : List RefImage,
        clearTrainingImages prev = (prev.map RefImage.url, []) ∧
        clearReferenceImages prev = (prev.map RefImage.url, [])) := by
  refine ⟨?_, ?_, ?_⟩
  · intro idv prev img hnd hfind
    obtain ⟨l1, l2, heq, hfilt, h1, h2⟩ := find_single_decomp idv prev hnd img hfind
    refine ⟨l1, l2, heq, ?_, ?_, ?_⟩
    · simp [removeTrainingImage, hfind, hfilt]
    · simp [removeReferenceImage, hfind, hfilt]
    · intro j hj
      rcases List.mem_append.mp hj with hj | hj
      · exact h1 j hj
      · exact h2 j hj
  · intro idv prev hfind
    have hall : ∀ j ∈ prev, j.id ≠ idv := by
      intro j hj
      have := List.find?_eq_none.mp hfind j hj
      simpa using this
    have hfe : prev.filter (fun i => i.id != idv) = prev :=
      List.filter_eq_self.mpr fun j hj => by simpa using hall j hj
    constructor
    · simp [removeTrainingImage, hfind, hfe]
    · simp [removeReferenceImage, hfind, hfe]
  · intro prev
    exact ⟨rfl, rfl⟩

/-- C8 witness. -/
theorem objectURL_lifecycle_witness :
    (∃ l1 l2, demoTrainImages = l1 ++ (⟨"img_2", "b.jpg", "blob:b"⟩ : RefImage) :: l2 ∧
      removeTrainingImage "img_2" demoTrainImages = (["blob:b"], l1 ++ l2) ∧
      removeReferenceImage "img_2" demoTrainImages = (["blob:b"], l1 ++ l2) ∧
      (∀ j ∈ l1 ++ l2, j.id ≠ "img_2")) ∧
    (removeTrainingImage "nope" demoTrainImages = ([], demoTrainImages) ∧
     removeReferenceImage "nope" demoTrainImages = ([], demoTrainImages)) ∧
    (clearTrainingImages demoTrainImages = (demoTrainImages.map RefImage.url, []) ∧
     clearReferenceImages demoTrainImages = (demoTrainImages.map RefImage.url, [])) :=
  ⟨objectURL_lifecycle.1 "img_2" demoTrainImages _ (by decide) (by decide),
   objectURL_lifecycle.2.1 "nope" demoTrainImages (by decide),
   objectURL_lifecycle.2.2 demoTrainImages⟩

/-- The full observable result of a successful `trainLoRAModel` run:
at least 5 images, a logged-in user, and every upload succeeding. -/
theorem trainLoRAModel_run (env : Env) (upl : String → String → String)
    (hup : ∀ f p, env.uploadResult f p = Except.ok (upl f p))
    (u : User) (now : Nat) (dateStr isoStr : String) (s : TrainState)
    (hn : 5 ≤ s.trainingImages.length) :
    trainLoRAModel env (some u) now dateStr isoStr s =
      { calls := (List.enumFrom 0 s.trainingImages).map (uploadCallOf "lora-training" u.id now)
        progressTrace := 0 :: ((List.range s.trainingImages.length).map
            (fun i : ℕ => (i : ℚ) / (s.trainingImages.length : ℚ) * 25)
          ++ [30, 40, 50, 60, 70, 80, 90, 95, 100, 0])
        modelTrace :=
          [some (trainedModel upl u now dateStr isoStr s),
           some { trainedModel upl u now dateStr isoStr s with progress := some 40 },
           some { trainedModel upl u now dateStr isoStr s with progress := some 50 },
           some { trainedModel upl u now dateStr isoStr s with progress := some 60 },
           some { trainedModel upl u now dateStr isoStr s with progress := some 70 },
           some { trainedModel upl u now dateStr isoStr s with progress := some 80 },
           some { trainedModel upl u now dateStr isoStr s with progress := some 90 },
           some { trainedModel upl u now dateStr isoStr s with progress := some 95 },
           some { trainedModel upl u now dateStr isoStr s with
                    status := ModelStatus.ready, progress := some 100 }]
        toasts := [.success "Starting LoRA model training...",
                   .success "Learning facial features...",
                   .success "Training on different angles...",
                   .success "Optimizing feature weights...",
                   .success "Finalizing model parameters...",
                   .success "üéâ LoRA model training completed! Your personalized AI model is ready to generate travel photos that perfectly preserve your facial features."]
        state := { s with
          currentModel := some { trainedModel upl u now dateStr isoStr s with
                                   status := ModelStatus.ready, progress := some 100 },
          useCustomModel := true, isTrainingModel := false, trainingProgress := 0 } } := by
  have hlt : ¬ s.trainingImages.length < 5 := by omega
  simp only [trainLoRAModel, if_neg hlt,
    uploadLoop_ok env upl hup "lora-training" u.id now 25 s.trainingImages.length]
  rw [enumFrom_map_index
    (fun i : ℕ => (i : ℚ) / (s.trainingImages.length : ℚ) * 25) s.trainingImages]
  rfl

/-- C1: the LoRA "training" workflow is simulated and produces no real
model.  For every run of `trainLoRAModel` with at least 5 training images,
a logged-in user and succeeding uploads, the only external service calls
made are one `blink.storage.upload` per training image (no AI or training
endpoint is invoked), and the resulting `LoRAModel` record is constructed
locally, entering the trace with status `training` and leaving it — and
the final state — with status `ready`. -/
theorem trainLoRAModel_simulated (env : Env) (upl : String → String → String)
    (hup : ∀ f p, env.uploadResult f p = Except.ok (upl f p))
    (u : User) (now : Nat) (dateStr isoStr : String) (s : TrainState)
    (hn : 5 ≤ s.trainingImages.length) :
    let res := trainLoRAModel env (some u) now dateStr isoStr s
    res.calls = (List.enumFrom 0 s.trainingImages).map (uploadCallOf "lora-training" u.id now) ∧
    res.calls.length = s.trainingImages.length ∧
    (∀ c ∈ res.calls, isAiCall c = false) ∧
    ∃ m : LoRAModel,
      res.modelTrace.head? = some (some m) ∧
      m.status = ModelStatus.training ∧
      m.trainingImages = (List.enumFrom 0 s.trainingImages).map
        (fun p => upl p.2.fileName (uploadPath "lora-training" u.id now p.1 p.2.fileName)) ∧
      res.modelTrace.getLast? =
        some (some { m with status := ModelStatus.ready, progress := some 100 }) ∧
      res.state.currentModel =
        some { m with status := ModelStatus.ready, progress := some 100 } := by
  intro res
  have hres : res = trainLoRAModel env (some u) now dateStr isoStr s := rfl
  rw [hres, trainLoRAModel_run env upl hup u now dateStr isoStr s hn]
  refine ⟨rfl, by simp, ?_, ?_⟩
  · intro c hc
    rcases List.mem_map.mp hc with ⟨p, _, rfl⟩
    rfl
  · exact ⟨trainedModel upl u now dateStr isoStr s, rfl, rfl, rfl, rfl, rfl⟩

/-- C1 witness. -/
theorem trainLoRAModel_simulated_witness :
    let res := trainLoRAModel demoEnv (some demoUser) 111 "1/2/2026" "iso" demoTrainState
    res.calls = (List.enumFrom 0 demoTrainState.trainingImages).map
      (uploadCallOf "lora-training" demoUser.id 111) ∧
    res.calls.length = demoTrainState.trainingImages.length ∧
    (∀ c ∈ res.calls, isAiCall c = false) ∧
    ∃ m : LoRAModel,
      res.modelTrace.head? = some (some m) ∧
      m.status = ModelStatus.training ∧
      m.trainingImages = (List.enumFrom 0 demoTrainState.trainingImages).map
        (fun p => demoUpl p.2.fileName (uploadPath "lora-training" demoUser.id 111 p.1 p.2.fileName)) ∧
      res.modelTrace.getLast? =
        some (some { m with status := ModelStatus.ready, progress := some 100 }) ∧
      res.state.currentModel =
        some { m with status := ModelStatus.ready, progress := some 100 } :=
  trainLoRAModel_simulated demoEnv demoUpl (fun _ _ => rfl) demoUser 111 "1/2/2026" "iso"
    demoTrainState (by decide)

/-- C2: during a successful run of `trainLoRAModel` with `n ≥ 5` training
images, the progress values follow the fixed hardcoded schedule —
`(i / n) * 25` for `i = 0 .. n-1` during uploads (after the initial reset
to 0), then 30, 40, 50, 60, 70, 80, 90, 95, 100, in that order — and the
trace never decreases while the run is in progress (the trailing 0 is the
`finally` reset after the run ends). -/
theorem trainingProgress_schedule (env : Env) (upl : String → String → String)
    (hup : ∀ f p, env.uploadResult f p = Except.ok (upl f p))
    (u : User) (now : Nat) (dateStr isoStr : String) (s : TrainState)
    (hn : 5 ≤ s.trainingImages.length) :
    let res := trainLoRAModel env (some u) now dateStr isoStr s
    res.progressTrace =
      0 :: ((List.range s.trainingImages.length).map
          (fun i : ℕ => (i : ℚ) / (s.trainingImages.length : ℚ) * 25)
        ++ [30, 40, 50, 60, 70, 80, 90, 95, 100, 0]) ∧
    List.Chain' (· ≤ ·) res.progressTrace.dropLast := by
  intro res
  have hres : res = trainLoRAModel env (some u) now dateStr isoStr s := rfl
  rw [hres, trainLoRAModel_run env upl hup u now dateStr isoStr s hn]
  refine ⟨rfl, ?_⟩
  rw [show TrainResult.progressTrace
        { calls := (List.enumFrom 0 s.trainingImages).map (uploadCallOf "lora-training" u.id now)
          progressTrace := 0 :: ((List.range s.trainingImages.length).map
              (fun i : ℕ => (i : ℚ) / (s.trainingImages.length : ℚ) * 25)
            ++ [30, 40, 50, 60, 70, 80, 90, 95, 100, 0])
          modelTrace :=
            [some (trainedModel upl u now dateStr isoStr s),
             some { trainedModel upl u now dateStr isoStr s with progress := some 40 },
             some { trainedModel upl u now dateStr isoStr s with progress := some 50 },
             some { trainedModel upl u now dateStr isoStr s with progress := some 60 },
             some { trainedModel upl u now dateStr isoStr s with progress := some 70 },
             some { trainedModel upl u now dateStr isoStr s with progress := some 80 },
             some { trainedModel upl u now dateStr isoStr s with progress := some 90 },
             some { trainedModel upl u now dateStr isoStr s with progress := some 95 },
             some { trainedModel upl u now dateStr isoStr s with
                      status := ModelStatus.ready, progress := some 100 }]
          toasts := [.success "Starting LoRA model training...",
                     .success "Learning facial features...",
                     .success "Training on different angles...",
                     .success "Optimizing feature weights...",
                     .success "Finalizing model parameters...",
                     .success "üéâ LoRA model training completed! Your personalized AI model is ready to generate travel photos that perfectly preserve your facial features."]
          state := { s with
            currentModel := some { trainedModel upl u now dateStr isoStr s with
                                     status := ModelStatus.ready, progress := some 100 },
            useCustomModel := true, isTrainingModel := false, trainingProgress := 0 } }
      = 0 :: ((List.range s.trainingImages.length).map
          (fun i : ℕ => (i : ℚ) / (s.trainingImages.length : ℚ) * 25)
        ++ [30, 40, 50, 60, 70, 80, 90, 95, 100, 0]) from rfl,
    show (0 : ℚ) :: ((List.range s.trainingImages.length).map
          (fun i : ℕ => (i : ℚ) / (s.trainingImages.length : ℚ) * 25)
        ++ [30, 40, 50, 60, 70, 80, 90, 95, 100, 0])
      = ((0 : ℚ) :: ((List.range s.trainingImages.length).map
          (fun i : ℕ => (i : ℚ) / (s.trainingImages.length : ℚ) * 25)
        ++ [30, 40, 50, 60, 70, 80, 90, 95, 100])) ++ [0] from by simp,
    List.dropLast_concat]
  exact chain_upload_schedule s.trainingImages.length 25 (by norm_num) (by norm_num) (by omega)

/-- C2 witness. -/
theorem trainingProgress_schedule_witness :
    let res := trainLoRAModel demoEnv (some demoUser) 111 "1/2/2026" "iso" demoTrainState
    res.progressTrace =
      0 :: ((List.range demoTrainState.trainingImages.length).map
          (fun i : ℕ => (i : ℚ) / (demoTrainState.trainingImages.length : ℚ) * 25)
        ++ [30, 40, 50, 60, 70, 80, 90, 95, 100, 0]) ∧
    List.Chain' (· ≤ ·) res.progressTrace.dropLast :=
  trainingProgress_schedule demoEnv demoUpl (fun _ _ => rfl) demoUser 111 "1/2/2026" "iso"
    demoTrainState (by decide)


/-- C6: sequential upload loops preserve order.  For every non-empty image
list, the shared upload loop (used by `trainLoRAModel` and
`generateWithInstantID`) uploads the images one at a time in list order
and collects `uploadedUrls` with the same length as the input, where the
`i`-th entry is exactly the public URL returned for the `i`-th image; the
calls of `trainLoRAModel` are exactly these uploads and the calls of
`generateWithInstantID` start with them. -/
theorem sequentialUploads_order (env : Env) (upl : String → String → String)
    (hup : ∀ f p, env.uploadResult f p = Except.ok (upl f p))
    (base uid : String) (now : Nat) (factor : ℚ) (imgs : List RefImage)
    (hne : imgs ≠ []) :
    let out := uploadLoop env base uid now factor imgs.length imgs 0
    let urls := (List.enumFrom 0 imgs).map
      (fun p => upl p.2.fileName (uploadPath base uid now p.1 p.2.fileName))
    out.calls = (List.enumFrom 0 imgs).map (uploadCallOf base uid now) ∧
    out.urls = Except.ok urls ∧
    urls.length = imgs.length ∧
    (∀ i img, imgs.get? i = some img →
      urls.get? i = some (upl img.fileName (uploadPath base uid now i img.fileName))) ∧
    (∀ (u : User) (dateStr isoStr : String) (s : TrainState),
      s.trainingImages = imgs → 5 ≤ imgs.length →
      (trainLoRAModel env (some u) now dateStr isoStr s).calls
        = (List.enumFrom 0 imgs).map (uploadCallOf "lora-training" u.id now)) ∧
    (∀ (u : User) (sel iso : String) (gen0 : Bool) (prog0 : ℚ), sel ≠ "" →
      ∃ rest, (generateWithInstantID env imgs sel (some u) now iso gen0 prog0).calls
        = (List.enumFrom 0 imgs).map (uploadCallOf "instant-id" u.id now) ++ rest) := by
  intro out urls
  have hloop := uploadLoop_ok env upl hup base uid now factor imgs.length imgs 0
  refine ⟨?_, ?_, ?_, ?_, ?_, ?_⟩
  · show (uploadLoop env base uid now factor imgs.length imgs 0).calls = _
    rw [hloop]
  · show (uploadLoop env base uid now factor imgs.length imgs 0).urls = _
    rw [hloop]
  · show ((List.enumFrom 0 imgs).map
      (fun p => upl p.2.fileName (uploadPath base uid now p.1 p.2.fileName))).length
        = imgs.length
    simp
  · intro i img hi
    show ((List.enumFrom 0 imgs).map
      (fun p => upl p.2.fileName (uploadPath base uid now p.1 p.2.fileName))).get? i = _
    rw [List.get?_map,
      show List.enumFrom 0 imgs = imgs.enum from rfl, List.get?_enum, hi]
    rfl
  · intro u dateStr isoStr s hs h5
    subst hs
    rw [trainLoRAModel_run env upl hup u now dateStr isoStr s h5]
  · intro u sel iso gen0 prog0 hsel
    have h0 : (imgs.length == 0) = false := by
      simp [List.length_eq_zero, hne]
    have h1 : (sel == "") = false := by simp [hsel]
    simp only [generateWithInstantID, h0, h1, Bool.or_self, Bool.false_or,
      if_false, Bool.false_eq_true,
      uploadLoop_ok env upl hup "instant-id" u.id now 30 imgs.length]
    rcases hfind : TRAVEL_DESTINATIONS.find? (fun d => d.id == sel) with _ | dest
    · simp only [hfind]
      exact ⟨[], by simp⟩
    · simp only [hfind]
      rcases hmod : env.modifyImageResult ((List.enumFrom 0 imgs).map
          (fun p => upl p.2.fileName (uploadPath "instant-id" u.id now p.1 p.2.fileName)))
          (instantIDPrompt dest) 3 with e | data
      · simp only [hmod]
        exact ⟨_, rfl⟩
      · simp only [hmod]
        by_cases hd : 0 < data.length
        · rw [if_pos hd]
          exact ⟨_, rfl⟩
        · rw [if_neg hd]
          exact ⟨_, rfl⟩

/-- C6 witness. -/
theorem sequentialUploads_order_witness :
    let out := uploadLoop demoEnv "instant-id" demoUser.id 222 30
      demoTrainImages.length demoTrainImages 0
    let urls := (List.enumFrom 0 demoTrainImages).map
      (fun p => demoUpl p.2.fileName (uploadPath "instant-id" demoUser.id 222 p.1 p.2.fileName))
    out.calls = (List.enumFrom 0 demoTrainImages).map (uploadCallOf "instant-id" demoUser.id 222) ∧
    out.urls = Except.ok urls ∧
    urls.length = demoTrainImages.length ∧
    (∀ i img, demoTrainImages.get? i = some img →
      urls.get? i = some (demoUpl img.fileName (uploadPath "instant-id" demoUser.id 222 i img.fileName))) ∧
    (∀ (u : User) (dateStr isoStr : String) (s : TrainState),
      s.trainingImages = demoTrainImages → 5 ≤ demoTrainImages.length →
      (trainLoRAModel demoEnv (some u) 222 dateStr isoStr s).calls
        = (List.enumFrom 0 demoTrainImages).map (uploadCallOf "lora-training" u.id 222)) ∧
    (∀ (u : User) (sel iso : String) (gen0 : Bool) (prog0 : ℚ), sel ≠ "" →
      ∃ rest, (generateWithInstantID demoEnv demoTrainImages sel (some u) 222 iso gen0 prog0).calls
        = (List.enumFrom 0 demoTrainImages).map (uploadCallOf "instant-id" u.id 222) ++ rest) :=
  sequentialUploads_order demoEnv demoUpl (fun _ _ => rfl) "instant-id" demoUser.id 222 30
    demoTrainImages (by decide)


/-- C4: the single-photo flow is upload, then AI call, then display.  With
a selected file, a valid destination and a logged-in user, the selected
file is uploaded first, then `blink.ai.modifyImage` is called with exactly
the uploaded public URL as the single reference image (n = 3 when
`generateMultiple`, else 1), and on success the resulting images — each
tagged with the destination's display name — are prepended to the
`generatedImages` list. -/
theorem generateTravelPhoto_pipeline (env : Env) (upl : String → String → String)
    (hup : ∀ f p, env.uploadResult f p = Except.ok (upl f p))
    (file sel : String) (u : User) (gm ucm : Bool) (cm : Option LoRAModel)
    (now : Nat) (iso : String) (gen0 : Bool) (prog0 : ℚ) (dest : Destination)
    (datas : List String)
    (hsel : sel ≠ "")
    (hdest : TRAVEL_DESTINATIONS.find? (fun d => d.id == sel) = some dest)
    (hmod : env.modifyImageResult
      [upl file ("originals/" ++ u.id ++ "/" ++ toString now ++ "-" ++ file)]
      (singlePhotoPrompt ucm cm dest) (if gm then 3 else 1) = Except.ok datas)
    (hne : datas ≠ []) :
    let path := "originals/" ++ u.id ++ "/" ++ toString now ++ "-" ++ file
    let res := generateTravelPhoto env (some file) sel (some u) gm ucm cm now iso gen0 prog0
    res.calls = [ExtCall.storageUpload file path true,
                 ExtCall.aiModifyImage [upl file path] (singlePhotoPrompt ucm cm dest)
                   "high" "1024x1024" (if gm then 3 else 1)] ∧
    res.images = datas.enum.map (fun p =>
      { id := "gen_" ++ toString now ++ "_" ++ toString p.1
        url := p.2
        destination := dest.name
        originalImage := upl file path
        originalImages := none
        createdAt := iso }) ∧
    res.images ≠ [] ∧
    (∀ g ∈ res.images, g.destination = dest.name) ∧
    (∀ prev, generatedImagesAfter res prev = res.images ++ prev) := by
  intro path res
  have hres : res
      = generateTravelPhoto env (some file) sel (some u) gm ucm cm now iso gen0 prog0 := rfl
  rw [hres]
  simp only [generateTravelPhoto, hup, hdest, hmod,
    if_neg (show ¬ (sel == "") = true by simp [hsel]),
    if_pos (List.length_pos.mpr hne)]
  refine ⟨by trivial, by trivial, ?_, ?_, fun prev => rfl⟩
  · simp [hne]
  · intro g hg
    rcases List.mem_map.mp hg with ⟨p, _, rfl⟩
    rfl

/-- C4 witness. -/
theorem generateTravelPhoto_pipeline_witness :
    let path := "originals/" ++ demoUser.id ++ "/" ++ toString 7 ++ "-" ++ "me.jpg"
    let res := generateTravelPhoto demoEnv (some "me.jpg") "paris" (some demoUser)
      false false none 7 "iso" false 0
    res.calls = [ExtCall.storageUpload "me.jpg" path true,
                 ExtCall.aiModifyImage [demoUpl "me.jpg" path]
                   (singlePhotoPrompt false none { id := "paris", name := "Paris, France", emoji := "üóº", description := "Eiffel Tower backdrop" })
                   "high" "1024x1024" (if false then 3 else 1)] ∧
    res.images = ["https://img.example/result-1"].enum.map (fun p =>
      { id := "gen_" ++ toString 7 ++ "_" ++ toString p.1
        url := p.2
        destination := ({ id := "paris", name := "Paris, France", emoji := "üóº", description := "Eiffel Tower backdrop" } : Destination).name
        originalImage := demoUpl "me.jpg" path
        originalImages := none
        createdAt := "iso" }) ∧
    res.images ≠ [] ∧
    (∀ g ∈ res.images, g.destination = ({ id := "paris", name := "Paris, France", emoji := "üóº", description := "Eiffel Tower backdrop" } : Destination).name) ∧
    (∀ prev, generatedImagesAfter res prev = res.images ++ prev) :=
  generateTravelPhoto_pipeline demoEnv demoUpl (fun _ _ => rfl) "me.jpg" "paris" demoUser
    false false none 7 "iso" false 0 { id := "paris", name := "Paris, France", emoji := "üóº", description := "Eiffel Tower backdrop" } ["https://img.example/result-1"]
    (by decide) (by decide) rfl (by decide)


/-- C10: error atomicity of every generation operation.  Whenever a run of
`generateTravelPhoto`, `generateWithLoRAModel`, `generateWithInstantID` or
`generateWithFaceSwap` ends with a caught error (any step throwing, which
includes the AI call returning no data), no images are produced — the
`generatedImages` list is left unchanged — and in every case, success or
failure, the run ends with `isGenerating` false and the generation
progress reset to 0. -/
theorem generation_error_atomicity :
    (∀ (env : Env) (file sel : String) (u : User) (gm ucm : Bool)
        (cm : Option LoRAModel) (now : Nat) (iso : String) (gen0 : Bool) (prog0 : ℚ),
      sel ≠ "" →
      let res := generateTravelPhoto env (some file) sel (some u) gm ucm cm now iso gen0 prog0
      (res.thrownError.isSome → res.images = []) ∧
      res.isGenerating = false ∧ res.generationProgress = 0) ∧
    (∀ (env : Env) (sel : String) (u : User) (m : LoRAModel) (now : Nat) (iso : String)
        (gen0 : Bool) (prog0 : ℚ), sel ≠ "" → m.status = ModelStatus.ready →
      let res := generateWithLoRAModel env sel (some u) (some m) now iso gen0 prog0
      (res.thrownError.isSome → res.images = []) ∧
      res.isGenerating = false ∧ res.generationProgress = 0) ∧
    (∀ (env : Env) (refs : List RefImage) (sel : String) (u : User) (now : Nat)
        (iso : String) (gen0 : Bool) (prog0 : ℚ), refs ≠ [] → sel ≠ "" →
      let res := generateWithInstantID env refs sel (some u) now iso gen0 prog0
      (res.thrownError.isSome → res.images = []) ∧
      res.isGenerating = false ∧ res.generationProgress = 0) ∧
    (∀ (env : Env) (portrait : RefImage) (sel : String) (u : User) (now : Nat)
        (iso : String) (gen0 : Bool) (prog0 : ℚ), sel ≠ "" →
      let res := generateWithFaceSwap env (some portrait) sel (some u) now iso gen0 prog0
      (res.thrownError.isSome → res.images = []) ∧
      res.isGenerating = false ∧ res.generationProgress = 0) := by
  refine ⟨?_, ?_, ?_, ?_⟩
  · intro env file sel u gm ucm cm now iso gen0 prog0 hsel res
    have hres : res
        = generateTravelPhoto env (some file) sel (some u) gm ucm cm now iso gen0 prog0 := rfl
    rw [hres]
    simp only [generateTravelPhoto, if_neg (show ¬ (sel == "") = true by simp [hsel])]
    rcases h1 : env.uploadResult file ("originals/" ++ u.id ++ "/" ++ toString now ++ "-" ++ file)
        with e | url
    · simp only [h1]
      simp
    · simp only [h1]
      rcases h2 : TRAVEL_DESTINATIONS.find? (fun d => d.id == sel) with _ | dest
      · simp only [h2]
        simp
      · simp only [h2]
        rcases h3 : env.modifyImageResult [url] (singlePhotoPrompt ucm cm dest)
            (if gm then 3 else 1) with e | data
        · simp only [h3]
          simp
        · simp only [h3]
          by_cases hd : 0 < data.length
          · rw [if_pos hd]
            simp
          · rw [if_neg hd]
            simp
  · intro env sel u m now iso gen0 prog0 hsel hm res
    have hres : res = generateWithLoRAModel env sel (some u) (some m) now iso gen0 prog0 := rfl
    rw [hres]
    simp only [generateWithLoRAModel,
      if_neg (show ¬ ((sel == "") || !(m.status == ModelStatus.ready)) = true
        by simp [hsel, hm])]
    rcases h2 : TRAVEL_DESTINATIONS.find? (fun d => d.id == sel) with _ | dest
    · simp only [h2]
      simp
    · simp only [h2]
      rcases h3 : env.generateImageResult (loraGenPrompt dest) 3 with e | data
      · simp only [h3]
        simp
      · simp only [h3]
        by_cases hd : 0 < data.length
        · rw [if_pos hd]
          simp
        · rw [if_neg hd]
          simp
  · intro env refs sel u now iso gen0 prog0 hrefs hsel res
    have hres : res = generateWithInstantID env refs sel (some u) now iso gen0 prog0 := rfl
    rw [hres]
    simp only [generateWithInstantID,
      if_neg (show ¬ ((refs.length == 0) || (sel == "")) = true
        by simp [hsel, List.length_eq_zero, hrefs])]
    rcases h1 : (uploadLoop env "instant-id" u.id now 30 refs.length refs 0).urls
        with e | urls
    · simp only [h1]
      simp
    · simp only [h1]
      rcases h2 : TRAVEL_DESTINATIONS.find? (fun d => d.id == sel) with _ | dest
      · simp only [h2]
        simp
      · simp only [h2]
        rcases h3 : env.modifyImageResult urls (instantIDPrompt dest) 3 with e | data
        · simp only [h3]
          simp
        · simp only [h3]
          by_cases hd : 0 < data.length
          · rw [if_pos hd]
            simp
          · rw [if_neg hd]
            simp
  · intro env portrait sel u now iso gen0 prog0 hsel res
    have hres : res = generateWithFaceSwap env (some portrait) sel (some u) now iso gen0 prog0 := rfl
    rw [hres]
    simp only [generateWithFaceSwap, if_neg (show ¬ (sel == "") = true by simp [hsel])]
    rcases h1 : env.uploadResult portrait.fileName
        ("face-portraits/" ++ u.id ++ "/" ++ toString now ++ "-" ++ portrait.fileName)
        with e | purl
    · simp only [h1]
      simp
    · simp only [h1]
      rcases h2 : TRAVEL_DESTINATIONS.find? (fun d => d.id == sel) with _ | dest
      · simp only [h2]
        simp
      · simp only [h2]
        rcases h3 : env.generateImageResult (scenePrompt dest) 1 with e | data
        · simp only [h3]
          simp
        · rcases data with _ | ⟨s0, srest⟩
          · simp only [h3]
            simp
          · simp only [h3]
            rcases h4 : env.modifyImageResult [s0, purl] (faceSwapPrompt dest) 3 with e | fdata
            · simp only [h4]
              simp
            · simp only [h4]
              by_cases hd : 0 < fdata.length
              · rw [if_pos hd]
                simp
              · rw [if_neg hd]
                simp

/-- C10 witness. -/
theorem generation_error_atomicity_witness :
    (let res := generateTravelPhoto demoEnv (some "me.jpg") "paris" (some demoUser)
        false false none 7 "iso" false 0
     (res.thrownError.isSome → res.images = []) ∧
     res.isGenerating = false ∧ res.generationProgress = 0) ∧
    (let res := generateWithLoRAModel demoEnv "paris" (some demoUser)
        (some { id := "m", name := "m", status := ModelStatus.ready,
                trainingImages := [], createdAt := "c", progress := some 100 })
        7 "iso" false 0
     (res.thrownError.isSome → res.images = []) ∧
     res.isGenerating = false ∧ res.generationProgress = 0) ∧
    (let res := generateWithInstantID demoEnv demoTrainImages "paris" (some demoUser)
        7 "iso" false 0
     (res.thrownError.isSome → res.images = []) ∧
     res.isGenerating = false ∧ res.generationProgress = 0) ∧
    (let res := generateWithFaceSwap demoEnv (some ⟨"p1", "face.jpg", "blob:f"⟩) "paris"
        (some demoUser) 7 "iso" false 0
     (res.thrownError.isSome → res.images = []) ∧
     res.isGenerating = false ∧ res.generationProgress = 0) :=
  ⟨generation_error_atomicity.1 demoEnv "me.jpg" "paris" demoUser false false none 7 "iso"
      false 0 (by decide),
   generation_error_atomicity.2.1 demoEnv "paris" demoUser
      { id := "m", name := "m", status := ModelStatus.ready,
        trainingImages := [], createdAt := "c", progress := some 100 }
      7 "iso" false 0 (by decide) rfl,
   generation_error_atomicity.2.2.1 demoEnv demoTrainImages "paris" demoUser 7 "iso"
      false 0 (by decide) (by decide),
   generation_error_atomicity.2.2.2 demoEnv ⟨"p1", "face.jpg", "blob:f"⟩ "paris" demoUser
      7 "iso" false 0 (by decide)⟩


/-- C3: the face-swap strategy is a two-stage pipeline.  With a face
portrait and a valid destination, `generateWithFaceSwap` first uploads the
portrait and calls `blink.ai.generateImage` (n = 1) for the scene; only
when that returns a non-empty result does it call `blink.ai.modifyImage`
with `[scene URL, portrait URL]` in that order; when scene generation
returns no data, no `modifyImage` call is made and no images are
delivered. -/
theorem generateWithFaceSwap_two_stage (env : Env) (upl : String → String → String)
    (hup : ∀ f p, env.uploadResult f p = Except.ok (upl f p))
    (portrait : RefImage) (sel : String) (u : User) (now : Nat) (iso : String)
    (gen0 : Bool) (prog0 : ℚ) (dest : Destination)
    (hsel : sel ≠ "")
    (hdest : TRAVEL_DESTINATIONS.find? (fun d => d.id == sel) = some dest) :
    let path := "face-portraits/" ++ u.id ++ "/" ++ toString now ++ "-" ++ portrait.fileName
    let purl := upl portrait.fileName path
    let res := generateWithFaceSwap env (some portrait) sel (some u) now iso gen0 prog0
    (∀ scene0 srest finalData,
        env.generateImageResult (scenePrompt dest) 1 = Except.ok (scene0 :: srest) →
        env.modifyImageResult [scene0, purl] (faceSwapPrompt dest) 3 = Except.ok finalData →
        finalData ≠ [] →
        res.calls = [ExtCall.storageUpload portrait.fileName path true,
                     ExtCall.aiGenerateImage (scenePrompt dest) "high" "1024x1024" 1,
                     ExtCall.aiModifyImage [scene0, purl] (faceSwapPrompt dest)
                       "high" "1024x1024" 3] ∧
        res.images ≠ [] ∧
        (∀ g ∈ res.images, g.destination = dest.name ∧ g.originalImage = purl)) ∧
    (env.generateImageResult (scenePrompt dest) 1 = Except.ok [] →
        res.calls = [ExtCall.storageUpload portrait.fileName path true,
                     ExtCall.aiGenerateImage (scenePrompt dest) "high" "1024x1024" 1] ∧
        (∀ c ∈ res.calls, isModifyCall c = false) ∧
        res.images = [] ∧
        res.thrownError = some (RunError.thrown "Failed to generate travel scene")) := by
  intro path purl res
  have hres : res = generateWithFaceSwap env (some portrait) sel (some u) now iso gen0 prog0 := rfl
  constructor
  · intro scene0 srest finalData hscene hmodres hne
    rw [hres]
    simp only [generateWithFaceSwap, if_neg (show ¬ (sel == "") = true by simp [hsel]),
      hup, hdest, hscene, hmodres, if_pos (List.length_pos.mpr hne)]
    refine ⟨by trivial, ?_, ?_⟩
    · simp [hne]
    · intro g hg
      rcases List.mem_map.mp hg with ⟨p, _, rfl⟩
      exact ⟨rfl, rfl⟩
  · intro hscene
    rw [hres]
    simp only [generateWithFaceSwap, if_neg (show ¬ (sel == "") = true by simp [hsel]),
      hup, hdest, hscene]
    refine ⟨by trivial, ?_, by trivial, by trivial⟩
    intro c hc
    rcases List.mem_cons.mp hc with rfl | hc
    · rfl
    · rcases List.mem_cons.mp hc with rfl | hc
      · rfl
      · simp at hc

/-- C3 witness: with `demoEnv` the scene generation succeeds, and with a
scene-less environment no `modifyImage` call is made. -/
theorem generateWithFaceSwap_two_stage_witness :
    (let path := "face-portraits/" ++ demoUser.id ++ "/" ++ toString 7 ++ "-" ++ "face.jpg"
     let purl := demoUpl "face.jpg" path
     let res := generateWithFaceSwap demoEnv (some ⟨"p1", "face.jpg", "blob:f"⟩) "paris"
       (some demoUser) 7 "iso" false 0
     res.calls = [ExtCall.storageUpload "face.jpg" path true,
                  ExtCall.aiGenerateImage
                    (scenePrompt { id := "paris", name := "Paris, France",
                                   emoji := "üóº",
                                   description := "Eiffel Tower backdrop" })
                    "high" "1024x1024" 1,
                  ExtCall.aiModifyImage ["https://img.example/scene-1", purl]
                    (faceSwapPrompt { id := "paris", name := "Paris, France",
                                      emoji := "üóº",
                                      description := "Eiffel Tower backdrop" })
                    "high" "1024x1024" 3] ∧
     res.images ≠ [] ∧
     (∀ g ∈ res.images, g.destination = "Paris, France" ∧ g.originalImage = purl)) ∧
    (let res := generateWithFaceSwap
       { demoEnv with generateImageResult := fun _ _ => Except.ok [] }
       (some ⟨"p1", "face.jpg", "blob:f"⟩) "paris" (some demoUser) 7 "iso" false 0
     (∀ c ∈ res.calls, isModifyCall c = false) ∧ res.images = []) := by
  constructor
  · have h := (generateWithFaceSwap_two_stage demoEnv demoUpl (fun _ _ => rfl)
      ⟨"p1", "face.jpg", "blob:f"⟩ "paris" demoUser 7 "iso" false 0
      { id := "paris", name := "Paris, France", emoji := "üóº",
        description := "Eiffel Tower backdrop" }
      (by decide) (by decide)).1 "https://img.example/scene-1" [] ["https://img.example/result-1"]
      rfl rfl (by decide)
    exact ⟨h.1, h.2.1, fun g hg => h.2.2 g hg⟩
  · have h := (generateWithFaceSwap_two_stage
      { demoEnv with generateImageResult := fun _ _ => Except.ok [] } demoUpl (fun _ _ => rfl)
      ⟨"p1", "face.jpg", "blob:f"⟩ "paris" demoUser 7 "iso" false 0
      { id := "paris", name := "Paris, France", emoji := "üóº",
        description := "Eiffel Tower backdrop" }
      (by decide) (by decide)).2 rfl
    exact ⟨h.2.1, h.2.2.1⟩


/-- The upload calls of an indexed upload loop are never AI calls. -/
theorem filter_isAiCall_uploads (base uid : String) (now : Nat)
    (l : List (Nat × RefImage)) :
    (l.map (uploadCallOf base uid now)).filter isAiCall = [] := by
  induction l with
  | nil => rfl
  | cons p rest ih => simp [uploadCallOf, isAiCall, ih]

/-- The InstantID prompt template literally starts with the label
`[InstantID Technology]`. -/
theorem instantIDPrompt_label (d : Destination) :
    ∃ rest, instantIDPrompt d = "[InstantID Technology]" ++ rest := by
  have hsplit : ("[InstantID Technology] Create a photorealistic travel photo using InstantID face preservation technology. Place the person from the reference images in " : String)
      = "[InstantID Technology]" ++ " Create a photorealistic travel photo using InstantID face preservation technology. Place the person from the reference images in " := by
    decide
  simp only [instantIDPrompt, hsplit, String.append_assoc]
  exact ⟨_, rfl⟩

/-- The PhotoMaker prompt (with or without a custom suffix) literally
starts with the label `[PhotoMaker Technology]`. -/
theorem photoMakerPrompt_label (d : Destination) (cp : String) :
    ∃ rest, photoMakerPrompt d cp = "[PhotoMaker Technology]" ++ rest := by
  have hsplit : ("[PhotoMaker Technology] Create a photorealistic travel photo using PhotoMaker's advanced identity preservation. Place the person from the reference images in " : String)
      = "[PhotoMaker Technology]" ++ " Create a photorealistic travel photo using PhotoMaker's advanced identity preservation. Place the person from the reference images in " := by
    decide
  by_cases h : cp.trim == ""
  · rw [photoMakerPrompt, if_pos h]
    simp only [photoMakerBase, hsplit, String.append_assoc]
    exact ⟨_, rfl⟩
  · rw [photoMakerPrompt, if_neg h]
    simp only [photoMakerBase, hsplit, String.append_assoc]
    exact ⟨_, rfl⟩

/-- C5: InstantID and PhotoMaker are only prompt-text labels.  With at
least one reference image and a valid destination, each generation is
exactly the sequential uploads followed by a single call to the generic
`blink.ai.modifyImage` endpoint whose `images` argument is the list of all
uploaded reference URLs and whose prompt is the fixed template starting
with the literal label `[InstantID Technology]` (resp.
`[PhotoMaker Technology]`); no other AI call is made. -/
theorem instantid_photomaker_labels (env : Env) (upl : String → String → String)
    (hup : ∀ f p, env.uploadResult f p = Except.ok (upl f p))
    (u : User) (sel : String) (dest : Destination)
    (hsel : sel ≠ "")
    (hdest : TRAVEL_DESTINATIONS.find? (fun d => d.id == sel) = some dest)
    (now : Nat) (iso : String) (gen0 : Bool) (prog0 : ℚ) :
    (∀ refs : List RefImage, refs ≠ [] →
      let urls := (List.enumFrom 0 refs).map
        (fun p => upl p.2.fileName (uploadPath "instant-id" u.id now p.1 p.2.fileName))
      ∀ data, env.modifyImageResult urls (instantIDPrompt dest) 3 = Except.ok data →
        data ≠ [] →
        let res := generateWithInstantID env refs sel (some u) now iso gen0 prog0
        res.calls = (List.enumFrom 0 refs).map (uploadCallOf "instant-id" u.id now)
          ++ [ExtCall.aiModifyImage urls (instantIDPrompt dest) "high" "1024x1024" 3] ∧
        res.calls.filter isAiCall
          = [ExtCall.aiModifyImage urls (instantIDPrompt dest) "high" "1024x1024" 3] ∧
        res.images ≠ [] ∧
        (∃ rest, instantIDPrompt dest = "[InstantID Technology]" ++ rest)) ∧
    (∀ (refs : List RefImage) (cp : String) (gm : Bool), refs ≠ [] →
      let urls := (List.enumFrom 0 refs).map
        (fun p => upl p.2.fileName (uploadPath "photomaker" u.id now p.1 p.2.fileName))
      ∀ data, env.modifyImageResult urls (photoMakerPrompt dest cp)
          (if gm then 4 else 2) = Except.ok data →
        data ≠ [] →
        let res := generateWithPhotoMaker env refs sel (some u) cp gm now iso gen0 prog0
        res.calls = (List.enumFrom 0 refs).map (uploadCallOf "photomaker" u.id now)
          ++ [ExtCall.aiModifyImage urls (photoMakerPrompt dest cp)
                "high" "1024x1024" (if gm then 4 else 2)] ∧
        res.calls.filter isAiCall
          = [ExtCall.aiModifyImage urls (photoMakerPrompt dest cp)
               "high" "1024x1024" (if gm then 4 else 2)] ∧
        res.images ≠ [] ∧
        (∃ rest, photoMakerPrompt dest cp = "[PhotoMaker Technology]" ++ rest)) := by
  constructor
  · intro refs hrefs urls data hmodres hne res
    have hurls : urls = (List.enumFrom 0 refs).map
        (fun p => upl p.2.fileName (uploadPath "instant-id" u.id now p.1 p.2.fileName)) := rfl
    have hres : res = generateWithInstantID env refs sel (some u) now iso gen0 prog0 := rfl
    rw [hurls] at hmodres
    rw [hres, hurls]
    simp only [generateWithInstantID,
      if_neg (show ¬ ((refs.length == 0) || (sel == "")) = true by
        simp [hsel, List.length_eq_zero, hrefs]),
      uploadLoop_ok env upl hup "instant-id" u.id now 30 refs.length, hdest,
      hmodres, if_pos (List.length_pos.mpr hne)]
    refine ⟨by trivial, ?_, by simp [hne], instantIDPrompt_label dest⟩
    rw [List.filter_append, filter_isAiCall_uploads]
    rfl
  · intro refs cp gm hrefs urls data hmodres hne res
    have hurls : urls = (List.enumFrom 0 refs).map
        (fun p => upl p.2.fileName (uploadPath "photomaker" u.id now p.1 p.2.fileName)) := rfl
    have hres : res = generateWithPhotoMaker env refs sel (some u) cp gm now iso gen0 prog0 := rfl
    rw [hurls] at hmodres
    rw [hres, hurls]
    simp only [generateWithPhotoMaker,
      if_neg (show ¬ ((refs.length == 0) || (sel == "")) = true by
        simp [hsel, List.length_eq_zero, hrefs]),
      uploadLoop_ok env upl hup "photomaker" u.id now 25 refs.length, hdest,
      hmodres, if_pos (List.length_pos.mpr hne)]
    refine ⟨by trivial, ?_, by simp [hne], photoMakerPrompt_label dest cp⟩
    rw [List.filter_append, filter_isAiCall_uploads]
    rfl


/-- C5 witness. -/
theorem instantid_photomaker_labels_witness :
    (let urls := (List.enumFrom 0 demoTrainImages).map
        (fun p => demoUpl p.2.fileName (uploadPath "instant-id" demoUser.id 7 p.1 p.2.fileName))
     let res := generateWithInstantID demoEnv demoTrainImages "paris" (some demoUser) 7 "iso" false 0
     res.calls = (List.enumFrom 0 demoTrainImages).map (uploadCallOf "instant-id" demoUser.id 7)
       ++ [ExtCall.aiModifyImage urls (instantIDPrompt { id := "paris", name := "Paris, France", emoji := "üóº", description := "Eiffel Tower backdrop" }) "high" "1024x1024" 3] ∧
     res.calls.filter isAiCall
       = [ExtCall.aiModifyImage urls (instantIDPrompt { id := "paris", name := "Paris, France", emoji := "üóº", description := "Eiffel Tower backdrop" }) "high" "1024x1024" 3] ∧
     res.images ≠ [] ∧
     (∃ rest, instantIDPrompt { id := "paris", name := "Paris, France", emoji := "üóº", description := "Eiffel Tower backdrop" } = "[InstantID Technology]" ++ rest)) ∧
    (let urls := (List.enumFrom 0 demoTrainImages).map
        (fun p => demoUpl p.2.fileName (uploadPath "photomaker" demoUser.id 7 p.1 p.2.fileName))
     let res := generateWithPhotoMaker demoEnv demoTrainImages "paris" (some demoUser)
       "" true 7 "iso" false 0
     res.calls = (List.enumFrom 0 demoTrainImages).map (uploadCallOf "photomaker" demoUser.id 7)
       ++ [ExtCall.aiModifyImage urls (photoMakerPrompt { id := "paris", name := "Paris, France", emoji := "üóº", description := "Eiffel Tower backdrop" } "")
             "high" "1024x1024" (if true then 4 else 2)] ∧
     res.calls.filter isAiCall
       = [ExtCall.aiModifyImage urls (photoMakerPrompt { id := "paris", name := "Paris, France", emoji := "üóº", description := "Eiffel Tower backdrop" } "")
            "high" "1024x1024" (if true then 4 else 2)] ∧
     res.images ≠ [] ∧
     (∃ rest, photoMakerPrompt { id := "paris", name := "Paris, France", emoji := "üóº", description := "Eiffel Tower backdrop" } "" = "[PhotoMaker Technology]" ++ rest)) :=
  ⟨(instantid_photomaker_labels demoEnv demoUpl (fun _ _ => rfl) demoUser "paris"
      { id := "paris", name := "Paris, France", emoji := "üóº", description := "Eiffel Tower backdrop" } (by decide) (by decide) 7 "iso" false 0).1
      demoTrainImages (by decide) ["https://img.example/result-1"] rfl (by decide),
   (instantid_photomaker_labels demoEnv demoUpl (fun _ _ => rfl) demoUser "paris"
      { id := "paris", name := "Paris, France", emoji := "üóº", description := "Eiffel Tower backdrop" } (by decide) (by decide) 7 "iso" false 0).2
      demoTrainImages "" true (by decide) ["https://img.example/result-1"] rfl (by decide)⟩

/-- C7: per-destination prompt assembly is total over the 8 known
destinations and fails otherwise.  For each of the 8 ids the lookup
succeeds and every generation prompt contains that destination's
description and name; for every other non-empty id the lookup fails, the
handler throws `Invalid destination`, no `blink.ai` call is made, and no
images are added to `generatedImages`. -/
theorem destination_prompt_totality :
    (∀ d ∈ TRAVEL_DESTINATIONS,
      TRAVEL_DESTINATIONS.find? (fun x => x.id == d.id) = some d) ∧
    (∀ (d : Destination) (ucm : Bool) (cm : Option LoRAModel) (cp : String),
      containsDest (singlePhotoPrompt ucm cm d) d ∧
      containsDest (loraGenPrompt d) d ∧
      containsDest (scenePrompt d) d ∧
      containsDest (instantIDPrompt d) d ∧
      containsDest (photoMakerPrompt d cp) d) ∧
    (∀ (env : Env) (upl : String → String → String),
      (∀ f p, env.uploadResult f p = Except.ok (upl f p)) →
      ∀ sel, sel ∉ TRAVEL_DESTINATIONS.map Destination.id → sel ≠ "" →
      (∀ (file : String) (u : User) (gm ucm : Bool) (cm : Option LoRAModel)
          (now : Nat) (iso : String) (gen0 : Bool) (prog0 : ℚ),
        let res := generateTravelPhoto env (some file) sel (some u) gm ucm cm now iso gen0 prog0
        res.thrownError = some (RunError.thrown "Invalid destination") ∧
        (∀ c ∈ res.calls, isAiCall c = false) ∧ res.images = [] ∧
        (∀ prev, generatedImagesAfter res prev = prev)) ∧
      (∀ (u : User) (m : LoRAModel) (now : Nat) (iso : String) (gen0 : Bool) (prog0 : ℚ),
        m.status = ModelStatus.ready →
        let res := generateWithLoRAModel env sel (some u) (some m) now iso gen0 prog0
        res.thrownError = some (RunError.thrown "Invalid destination") ∧
        res.calls = [] ∧ res.images = []) ∧
      (∀ (refs : List RefImage) (u : User) (now : Nat) (iso : String)
          (gen0 : Bool) (prog0 : ℚ), refs ≠ [] →
        let res := generateWithInstantID env refs sel (some u) now iso gen0 prog0
        res.thrownError = some (RunError.thrown "Invalid destination") ∧
        (∀ c ∈ res.calls, isAiCall c = false) ∧ res.images = []) ∧
      (∀ (refs : List RefImage) (u : User) (cp : String) (gm : Bool) (now : Nat)
          (iso : String) (gen0 : Bool) (prog0 : ℚ), refs ≠ [] →
        let res := generateWithPhotoMaker env refs sel (some u) cp gm now iso gen0 prog0
        res.thrownError = some (RunError.thrown "Invalid destination") ∧
        (∀ c ∈ res.calls, isAiCall c = false) ∧ res.images = []) ∧
      (∀ (portrait : RefImage) (u : User) (now : Nat) (iso : String)
          (gen0 : Bool) (prog0 : ℚ),
        let res := generateWithFaceSwap env (some portrait) sel (some u) now iso gen0 prog0
        res.thrownError = some (RunError.thrown "Invalid destination") ∧
        (∀ c ∈ res.calls, isAiCall c = false) ∧ res.images = [])) := by
  refine ⟨by decide, ?_, ?_⟩
  · intro d ucm cm cp
    refine ⟨?_, ⟨_, _, _, rfl⟩, ⟨_, _, _, rfl⟩, ⟨_, _, _, rfl⟩, ?_⟩
    · rw [singlePhotoPrompt]
      split
      · exact ⟨_, _, _, rfl⟩
      · exact ⟨_, _, _, rfl⟩
    · rw [photoMakerPrompt]
      split
      · exact ⟨_, _, _, rfl⟩
      · exact containsDest_append
          (containsDest_append (⟨_, _, _, rfl⟩ : containsDest (photoMakerBase d) d) _) _
  · intro env upl hup sel hnot hsel
    have hfindn : TRAVEL_DESTINATIONS.find? (fun d => d.id == sel) = none :=
      find?_dest_none sel hnot
    refine ⟨?_, ?_, ?_, ?_, ?_⟩
    · intro file u gm ucm cm now iso gen0 prog0 res
      have hres : res
          = generateTravelPhoto env (some file) sel (some u) gm ucm cm now iso gen0 prog0 := rfl
      rw [hres]
      simp only [generateTravelPhoto, if_neg (show ¬ (sel == "") = true by simp [hsel]),
        hup, hfindn]
      refine ⟨by trivial, ?_, by trivial, fun prev => by simp [generatedImagesAfter]⟩
      intro c hc
      rcases List.mem_singleton.mp hc with rfl
      rfl
    · intro u m now iso gen0 prog0 hm res
      have hres : res = generateWithLoRAModel env sel (some u) (some m) now iso gen0 prog0 := rfl
      rw [hres]
      simp only [generateWithLoRAModel,
        if_neg (show ¬ ((sel == "") || !(m.status == ModelStatus.ready)) = true by
          simp [hsel, hm]),
        hfindn]
      exact ⟨by trivial, by trivial, by trivial⟩
    · intro refs u now iso gen0 prog0 hrefs res
      have hres : res = generateWithInstantID env refs sel (some u) now iso gen0 prog0 := rfl
      rw [hres]
      simp only [generateWithInstantID,
        if_neg (show ¬ ((refs.length == 0) || (sel == "")) = true by
          simp [hsel, List.length_eq_zero, hrefs]),
        uploadLoop_ok env upl hup "instant-id" u.id now 30 refs.length, hfindn]
      refine ⟨by trivial, ?_, by trivial⟩
      intro c hc
      rcases List.mem_map.mp hc with ⟨p, _, rfl⟩
      rfl
    · intro refs u cp gm now iso gen0 prog0 hrefs res
      have hres : res = generateWithPhotoMaker env refs sel (some u) cp gm now iso gen0 prog0 := rfl
      rw [hres]
      simp only [generateWithPhotoMaker,
        if_neg (show ¬ ((refs.length == 0) || (sel == "")) = true by
          simp [hsel, List.length_eq_zero, hrefs]),
        uploadLoop_ok env upl hup "photomaker" u.id now 25 refs.length, hfindn]
      refine ⟨by trivial, ?_, by trivial⟩
      intro c hc
      rcases List.mem_map.mp hc with ⟨p, _, rfl⟩
      rfl
    · intro portrait u now iso gen0 prog0 res
      have hres : res = generateWithFaceSwap env (some portrait) sel (some u) now iso gen0 prog0 := rfl
      rw [hres]
      simp only [generateWithFaceSwap, if_neg (show ¬ (sel == "") = true by simp [hsel]),
        hup, hfindn]
      refine ⟨by trivial, ?_, by trivial⟩
      intro c hc
      rcases List.mem_singleton.mp hc with rfl
      rfl


/-- C7 witness. -/
theorem destination_prompt_totality_witness :
    TRAVEL_DESTINATIONS.find? (fun x => x.id == ({ id := "paris", name := "Paris, France", emoji := "üóº", description := "Eiffel Tower backdrop" } : Destination).id)
      = some { id := "paris", name := "Paris, France", emoji := "üóº", description := "Eiffel Tower backdrop" } ∧
    containsDest (scenePrompt { id := "paris", name := "Paris, France", emoji := "üóº", description := "Eiffel Tower backdrop" }) { id := "paris", name := "Paris, France", emoji := "üóº", description := "Eiffel Tower backdrop" } ∧
    (generateTravelPhoto demoEnv (some "me.jpg") "atlantis" (some demoUser)
        false false none 7 "iso" false 0).thrownError
      = some (RunError.thrown "Invalid destination") ∧
    (generateTravelPhoto demoEnv (some "me.jpg") "atlantis" (some demoUser)
        false false none 7 "iso" false 0).images = [] ∧
    (generateWithLoRAModel demoEnv "atlantis" (some demoUser)
        (some { id := "m", name := "m", status := ModelStatus.ready,
                trainingImages := [], createdAt := "c", progress := some 100 })
        7 "iso" false 0).calls = [] ∧
    (generateWithInstantID demoEnv demoTrainImages "atlantis" (some demoUser)
        7 "iso" false 0).images = [] ∧
    (generateWithPhotoMaker demoEnv demoTrainImages "atlantis" (some demoUser)
        "" true 7 "iso" false 0).images = [] ∧
    (generateWithFaceSwap demoEnv (some ⟨"p1", "face.jpg", "blob:f"⟩) "atlantis"
        (some demoUser) 7 "iso" false 0).thrownError
      = some (RunError.thrown "Invalid destination") :=
  ⟨destination_prompt_totality.1 { id := "paris", name := "Paris, France", emoji := "üóº", description := "Eiffel Tower backdrop" } (by decide),
   (destination_prompt_totality.2.1 { id := "paris", name := "Paris, France", emoji := "üóº", description := "Eiffel Tower backdrop" } false none "").2.2.1,
   ((destination_prompt_totality.2.2 demoEnv demoUpl (fun _ _ => rfl) "atlantis"
      (by decide) (by decide)).1 "me.jpg" demoUser false false none 7 "iso" false 0).1,
   ((destination_prompt_totality.2.2 demoEnv demoUpl (fun _ _ => rfl) "atlantis"
      (by decide) (by decide)).1 "me.jpg" demoUser false false none 7 "iso" false 0).2.2.1,
   ((destination_prompt_totality.2.2 demoEnv demoUpl (fun _ _ => rfl) "atlantis"
      (by decide) (by decide)).2.1 demoUser
      { id := "m", name := "m", status := ModelStatus.ready,
        trainingImages := [], createdAt := "c", progress := some 100 }
      7 "iso" false 0 rfl).2.1,
   ((destination_prompt_totality.2.2 demoEnv demoUpl (fun _ _ => rfl) "atlantis"
      (by decide) (by decide)).2.2.1 demoTrainImages demoUser 7 "iso" false 0 (by decide)).2.2,
   ((destination_prompt_totality.2.2 demoEnv demoUpl (fun _ _ => rfl) "atlantis"
      (by decide) (by decide)).2.2.2.1 demoTrainImages demoUser "" true 7 "iso" false 0
      (by decide)).2.2,
   ((destination_prompt_totality.2.2 demoEnv demoUpl (fun _ _ => rfl) "atlantis"
      (by decide) (by decide)).2.2.2.2 ⟨"p1", "face.jpg", "blob:f"⟩ demoUser
      7 "iso" false 0).1⟩

end TravelApp
